import Mathlib

/-!
Register kinds of the register allocator: the lattice and the classifier.

A shallow embedding of `opt/regalloc/RegisterType.cpp`: the lattice of register
kinds (the element list and the Hasse edges passed to the `Lattice` constructor),
the move synthesis `gen_move`, and the classifiers `dest_reg_type` and
`src_reg_type`. A call that runs into a failing assertion returns
`Except.error` with the assertion it ran into; a call that returns gives
`Except.ok`.
-/

namespace regalloc

/-- Register kinds: the enumerators of `RegisterType`, as the exhaustive switches of
`show` and `move_op_for_type` list them; `SIZE` is the count sentinel. -/
inductive RegisterType
  | CONFLICT
  | ZERO
  | NORMAL
  | WIDE
  | OBJECT
  | UNKNOWN
  | SIZE
  deriving DecidableEq, Repr, Fintype

/-- The ways a call can abort: one constructor per assertion message of
`RegisterType.cpp`, plus `not_reached`, the bare `always_assert`, and the
`std::out_of_range` of `at`, the use of a handle that is null, and the call of
`join` on what is no element of the lattice. -/
inductive Abort
  | no_dest
  | no_src
  | unhandled_opcode
  | unknown_opcode
  | cannot_generate_move
  | not_reached
  | assert_failed
  | out_of_range
  | null_handle
  | not_an_element
  deriving DecidableEq, Repr

deriving instance DecidableEq for Except

/-- A lattice description as the `Lattice` constructor receives it: the element
list and the list of Hasse edges, each edge a pair of a lower element and the
element just above it in the diagram. -/
structure Lattice where
  elements : List RegisterType
  edges : List (RegisterType × RegisterType)

namespace register_type_impl

open RegisterType in
/-- The global `lattice` of `RegisterType.cpp`, lines 30-42. -/
def lattice : Lattice where
  elements := [CONFLICT, ZERO, NORMAL, WIDE, OBJECT, UNKNOWN]
  edges := [(CONFLICT, OBJECT),
            (CONFLICT, NORMAL),
            (CONFLICT, WIDE),
            (OBJECT, ZERO),
            (NORMAL, ZERO),
            (ZERO, UNKNOWN),
            (WIDE, UNKNOWN)]

end register_type_impl

/-- One Hasse edge: `(a, b)` is in the edge list, `a` the child and `b` its parent. -/
def Lattice.covers (L : Lattice) (a b : RegisterType) : Prop :=
  (a, b) ∈ L.edges

instance (L : Lattice) (a b : RegisterType) : Decidable (L.covers a b) :=
  inferInstanceAs (Decidable ((a, b) ∈ L.edges))

/-- The order generated by the edges: the reflexive-transitive closure of
child → parent, so that a child is below its parent. -/
def Lattice.Le (L : Lattice) : RegisterType → RegisterType → Prop :=
  Relation.ReflTransGen L.covers

/-- The parents of `a`: the second components of the edges that start at `a`. -/
def Lattice.parents (L : Lattice) (a : RegisterType) : List RegisterType :=
  (L.edges.filter (fun e => decide (e.1 = a))).map Prod.snd

/-- The elements reached from `a` by at most `n` child → parent steps. -/
def Lattice.ancestors (L : Lattice) : Nat → RegisterType → List RegisterType
  | 0, a => [a]
  | n + 1, a => a :: ((L.parents a).map (L.ancestors n)).flatten

/-- Executable test of the generated order: `b` is reached from `a` within as
many steps as there are edges. -/
def Lattice.leb (L : Lattice) (a b : RegisterType) : Bool :=
  decide (b ∈ L.ancestors L.edges.length a)

/-- Modelled from the spec: the test that the `join` of the absent `Lattice` class
applies to a candidate result `c`: it is below both `a` and `b` in the generated
order, and every element below both is below it. -/
def Lattice.is_meet (L : Lattice) (a b c : RegisterType) : Bool :=
  L.leb c a && L.leb c b &&
    L.elements.all (fun d => !(L.leb d a && L.leb d b) || L.leb d c)

/-- Modelled from the spec: the `Lattice` class (its constructor and its `join`)
is declared outside `RegisterType.cpp`. The spec makes `join` total on the six
elements and an abort on `SIZE`, and fixes its values on the diagram:
`join(x, x) = x`, `join(x, UNKNOWN) = x`, `join(ZERO, OBJECT) = OBJECT`,
`join(ZERO, NORMAL) = NORMAL`, `join(OBJECT, NORMAL) = CONFLICT`,
`join(WIDE, ZERO) = CONFLICT`, `join(CONFLICT, x) = CONFLICT`. These are the
values of the common bound of the two inputs on the CONFLICT side of the edges
that is nearest to them, and the model searches the element list for that bound.
(The spec also words `join` as the least upper bound, the minimal element ≥ both
inputs; with the edges of the source read child → parent that bound of OBJECT and
NORMAL is ZERO, against the values above, which the model follows.) -/
def Lattice.join (L : Lattice) (a b : RegisterType) : Except Abort RegisterType :=
  if a ∈ L.elements ∧ b ∈ L.elements then
    match L.elements.find? (L.is_meet a b) with
    | some c => .ok c
    | none => .error .not_an_element
  else .error .not_an_element

/-- The `join` of the global lattice. -/
def join (a b : RegisterType) : Except Abort RegisterType :=
  register_type_impl.lattice.join a b

/-! ## Instructions -/

/-- Register numbers and operand indices (`reg_t`). -/
abbrev reg_t := Nat

/-- Opcodes (`DexOpcode`): every enumerator that a case label of `dest_reg_type` and
`src_reg_type` names, in the order of the switch, and `UNLISTED` for any value of
the enumeration that no case label names (it reaches `default`). -/
inductive DexOpcode
  | OPCODE_NOP
  | OPCODE_MOVE
  | OPCODE_MOVE_WIDE
  | OPCODE_MOVE_OBJECT
  | OPCODE_MOVE_RESULT
  | OPCODE_MOVE_RESULT_WIDE
  | OPCODE_MOVE_RESULT_OBJECT
  | OPCODE_MOVE_EXCEPTION
  | OPCODE_RETURN_VOID
  | OPCODE_RETURN
  | OPCODE_RETURN_WIDE
  | OPCODE_RETURN_OBJECT
  | OPCODE_CONST_4
  | OPCODE_MONITOR_ENTER
  | OPCODE_MONITOR_EXIT
  | OPCODE_THROW
  | OPCODE_GOTO
  | OPCODE_NEG_INT
  | OPCODE_NOT_INT
  | OPCODE_NEG_LONG
  | OPCODE_NOT_LONG
  | OPCODE_NEG_FLOAT
  | OPCODE_NEG_DOUBLE
  | OPCODE_INT_TO_LONG
  | OPCODE_INT_TO_FLOAT
  | OPCODE_INT_TO_DOUBLE
  | OPCODE_LONG_TO_INT
  | OPCODE_LONG_TO_FLOAT
  | OPCODE_LONG_TO_DOUBLE
  | OPCODE_FLOAT_TO_INT
  | OPCODE_FLOAT_TO_LONG
  | OPCODE_FLOAT_TO_DOUBLE
  | OPCODE_DOUBLE_TO_INT
  | OPCODE_DOUBLE_TO_LONG
  | OPCODE_DOUBLE_TO_FLOAT
  | OPCODE_INT_TO_BYTE
  | OPCODE_INT_TO_CHAR
  | OPCODE_INT_TO_SHORT
  | OPCODE_ADD_INT_2ADDR
  | OPCODE_SUB_INT_2ADDR
  | OPCODE_MUL_INT_2ADDR
  | OPCODE_DIV_INT_2ADDR
  | OPCODE_REM_INT_2ADDR
  | OPCODE_AND_INT_2ADDR
  | OPCODE_OR_INT_2ADDR
  | OPCODE_XOR_INT_2ADDR
  | OPCODE_SHL_INT_2ADDR
  | OPCODE_SHR_INT_2ADDR
  | OPCODE_USHR_INT_2ADDR
  | OPCODE_ADD_LONG_2ADDR
  | OPCODE_SUB_LONG_2ADDR
  | OPCODE_MUL_LONG_2ADDR
  | OPCODE_DIV_LONG_2ADDR
  | OPCODE_REM_LONG_2ADDR
  | OPCODE_AND_LONG_2ADDR
  | OPCODE_OR_LONG_2ADDR
  | OPCODE_XOR_LONG_2ADDR
  | OPCODE_SHL_LONG_2ADDR
  | OPCODE_SHR_LONG_2ADDR
  | OPCODE_USHR_LONG_2ADDR
  | OPCODE_ADD_FLOAT_2ADDR
  | OPCODE_SUB_FLOAT_2ADDR
  | OPCODE_MUL_FLOAT_2ADDR
  | OPCODE_DIV_FLOAT_2ADDR
  | OPCODE_REM_FLOAT_2ADDR
  | OPCODE_ADD_DOUBLE_2ADDR
  | OPCODE_SUB_DOUBLE_2ADDR
  | OPCODE_MUL_DOUBLE_2ADDR
  | OPCODE_DIV_DOUBLE_2ADDR
  | OPCODE_REM_DOUBLE_2ADDR
  | OPCODE_ARRAY_LENGTH
  | OPCODE_MOVE_FROM16
  | OPCODE_MOVE_WIDE_FROM16
  | OPCODE_MOVE_OBJECT_FROM16
  | OPCODE_CONST_16
  | OPCODE_CONST_HIGH16
  | OPCODE_CONST_WIDE_16
  | OPCODE_CONST_WIDE_HIGH16
  | OPCODE_GOTO_16
  | OPCODE_CMPL_FLOAT
  | OPCODE_CMPG_FLOAT
  | OPCODE_CMPL_DOUBLE
  | OPCODE_CMPG_DOUBLE
  | OPCODE_CMP_LONG
  | OPCODE_IF_EQ
  | OPCODE_IF_NE
  | OPCODE_IF_LT
  | OPCODE_IF_GE
  | OPCODE_IF_GT
  | OPCODE_IF_LE
  | OPCODE_IF_EQZ
  | OPCODE_IF_NEZ
  | OPCODE_IF_LTZ
  | OPCODE_IF_GEZ
  | OPCODE_IF_GTZ
  | OPCODE_IF_LEZ
  | OPCODE_AGET
  | OPCODE_AGET_WIDE
  | OPCODE_AGET_OBJECT
  | OPCODE_AGET_BOOLEAN
  | OPCODE_AGET_BYTE
  | OPCODE_AGET_CHAR
  | OPCODE_AGET_SHORT
  | OPCODE_APUT
  | OPCODE_APUT_WIDE
  | OPCODE_APUT_OBJECT
  | OPCODE_APUT_BOOLEAN
  | OPCODE_APUT_BYTE
  | OPCODE_APUT_CHAR
  | OPCODE_APUT_SHORT
  | OPCODE_ADD_INT
  | OPCODE_SUB_INT
  | OPCODE_MUL_INT
  | OPCODE_DIV_INT
  | OPCODE_REM_INT
  | OPCODE_AND_INT
  | OPCODE_OR_INT
  | OPCODE_XOR_INT
  | OPCODE_SHL_INT
  | OPCODE_SHR_INT
  | OPCODE_USHR_INT
  | OPCODE_ADD_LONG
  | OPCODE_SUB_LONG
  | OPCODE_MUL_LONG
  | OPCODE_DIV_LONG
  | OPCODE_REM_LONG
  | OPCODE_AND_LONG
  | OPCODE_OR_LONG
  | OPCODE_XOR_LONG
  | OPCODE_SHL_LONG
  | OPCODE_SHR_LONG
  | OPCODE_USHR_LONG
  | OPCODE_ADD_FLOAT
  | OPCODE_SUB_FLOAT
  | OPCODE_MUL_FLOAT
  | OPCODE_DIV_FLOAT
  | OPCODE_REM_FLOAT
  | OPCODE_ADD_DOUBLE
  | OPCODE_SUB_DOUBLE
  | OPCODE_MUL_DOUBLE
  | OPCODE_DIV_DOUBLE
  | OPCODE_REM_DOUBLE
  | OPCODE_ADD_INT_LIT16
  | OPCODE_RSUB_INT
  | OPCODE_MUL_INT_LIT16
  | OPCODE_DIV_INT_LIT16
  | OPCODE_REM_INT_LIT16
  | OPCODE_AND_INT_LIT16
  | OPCODE_OR_INT_LIT16
  | OPCODE_XOR_INT_LIT16
  | OPCODE_ADD_INT_LIT8
  | OPCODE_RSUB_INT_LIT8
  | OPCODE_MUL_INT_LIT8
  | OPCODE_DIV_INT_LIT8
  | OPCODE_REM_INT_LIT8
  | OPCODE_AND_INT_LIT8
  | OPCODE_OR_INT_LIT8
  | OPCODE_XOR_INT_LIT8
  | OPCODE_SHL_INT_LIT8
  | OPCODE_SHR_INT_LIT8
  | OPCODE_USHR_INT_LIT8
  | OPCODE_MOVE_16
  | OPCODE_MOVE_WIDE_16
  | OPCODE_MOVE_OBJECT_16
  | OPCODE_CONST
  | OPCODE_CONST_WIDE_32
  | OPCODE_FILL_ARRAY_DATA
  | OPCODE_GOTO_32
  | OPCODE_PACKED_SWITCH
  | OPCODE_SPARSE_SWITCH
  | OPCODE_CONST_WIDE
  | OPCODE_IGET
  | OPCODE_IGET_WIDE
  | OPCODE_IGET_OBJECT
  | OPCODE_IGET_BOOLEAN
  | OPCODE_IGET_BYTE
  | OPCODE_IGET_CHAR
  | OPCODE_IGET_SHORT
  | OPCODE_IPUT
  | OPCODE_IPUT_WIDE
  | OPCODE_IPUT_OBJECT
  | OPCODE_IPUT_BOOLEAN
  | OPCODE_IPUT_BYTE
  | OPCODE_IPUT_CHAR
  | OPCODE_IPUT_SHORT
  | OPCODE_SGET
  | OPCODE_SGET_WIDE
  | OPCODE_SGET_OBJECT
  | OPCODE_SGET_BOOLEAN
  | OPCODE_SGET_BYTE
  | OPCODE_SGET_CHAR
  | OPCODE_SGET_SHORT
  | OPCODE_SPUT
  | OPCODE_SPUT_WIDE
  | OPCODE_SPUT_OBJECT
  | OPCODE_SPUT_BOOLEAN
  | OPCODE_SPUT_BYTE
  | OPCODE_SPUT_CHAR
  | OPCODE_SPUT_SHORT
  | OPCODE_INVOKE_VIRTUAL
  | OPCODE_INVOKE_SUPER
  | OPCODE_INVOKE_DIRECT
  | OPCODE_INVOKE_STATIC
  | OPCODE_INVOKE_INTERFACE
  | OPCODE_INVOKE_VIRTUAL_RANGE
  | OPCODE_INVOKE_SUPER_RANGE
  | OPCODE_INVOKE_DIRECT_RANGE
  | OPCODE_INVOKE_STATIC_RANGE
  | OPCODE_INVOKE_INTERFACE_RANGE
  | OPCODE_CONST_STRING
  | OPCODE_CONST_STRING_JUMBO
  | OPCODE_CONST_CLASS
  | OPCODE_CHECK_CAST
  | OPCODE_INSTANCE_OF
  | OPCODE_NEW_INSTANCE
  | OPCODE_NEW_ARRAY
  | OPCODE_FILLED_NEW_ARRAY
  | OPCODE_FILLED_NEW_ARRAY_RANGE
  | IOPCODE_LOAD_PARAM
  | IOPCODE_LOAD_PARAM_OBJECT
  | IOPCODE_LOAD_PARAM_WIDE
  | UNLISTED
  deriving DecidableEq, Repr

/-- Modelled from the spec: a type handle (`DexType`, declared in the IR library),
as far as the classifier looks at it: a 64-bit primitive, a non-wide primitive,
a class, or an array of some element type. -/
inductive DexType
  | wide_primitive
  | narrow_primitive
  | class_type
  | array (element : DexType)
  deriving DecidableEq, Repr

/-- Modelled from the spec: the type predicate `is_wide_type` of the IR library,
true of the 64-bit types. -/
def is_wide_type : DexType → Bool
  | .wide_primitive => true
  | _ => false

/-- Modelled from the spec: the type predicate `is_primitive` of the IR library,
true of the primitives, wide or not. -/
def is_primitive : DexType → Bool
  | .wide_primitive => true
  | .narrow_primitive => true
  | _ => false

/-- Modelled from the spec: `get_array_type` of the IR library, the element type
of an array type; on any other type there is no handle to return. -/
def get_array_type : DexType → Except Abort DexType
  | .array element => .ok element
  | _ => .error .null_handle

/-- Modelled from the spec: a method handle (`DexMethod`, declared in the IR
library), reduced to the ordered argument-type list of its proto, which is what
`get_proto()->get_args()->get_type_list()` yields. -/
structure DexMethod where
  get_type_list : List DexType
  deriving DecidableEq, Repr

/-- Modelled from the spec: the instruction handle (`IRInstruction`, declared in
the IR library) with the capabilities the classifier relies on: the opcode, the
destination and source registers, the literal, the referenced method and the
referenced type. -/
structure IRInstruction where
  opcode : DexOpcode
  dest : reg_t
  srcs : List reg_t
  literal : Int
  method : Option DexMethod
  type : Option DexType
  deriving DecidableEq, Repr

/-- Modelled from the spec: `new IRInstruction(op)`, a fresh instruction of the
opcode with no operand set yet. -/
def IRInstruction.new (op : DexOpcode) : IRInstruction :=
  { opcode := op, dest := 0, srcs := [], literal := 0, method := none, type := none }

/-- Modelled from the spec: `set_dest`, which stores the destination register. -/
def IRInstruction.set_dest (insn : IRInstruction) (dest : reg_t) : IRInstruction :=
  { insn with dest := dest }

/-- Modelled from the spec: `set_src(i, reg)`, which stores source operand `i`
(operands before `i` that were never set read as register 0). -/
def IRInstruction.set_src (insn : IRInstruction) (i : Nat) (reg : reg_t) : IRInstruction :=
  if i < insn.srcs.length then { insn with srcs := insn.srcs.set i reg }
  else { insn with srcs := insn.srcs ++ List.replicate (i - insn.srcs.length) 0 ++ [reg] }

/-- Modelled from the spec: `src(i)`, source operand `i` when the instruction has one. -/
def IRInstruction.src (insn : IRInstruction) (i : Nat) : Option reg_t :=
  insn.srcs.get? i

/-- Modelled from the spec: `get_method()`, the referenced method handle; an
instruction without one has none to give. -/
def IRInstruction.get_method (insn : IRInstruction) : Except Abort DexMethod :=
  match insn.method with
  | some m => .ok m
  | none => .error .null_handle

/-- Modelled from the spec: `get_type()`, the referenced type handle; an
instruction without one has none to give. -/
def IRInstruction.get_type (insn : IRInstruction) : Except Abort DexType :=
  match insn.type with
  | some t => .ok t
  | none => .error .null_handle

/-! ## Move synthesis (lines 65-88) -/

/-- The move opcode of a kind: `move_op_for_type`. -/
def move_op_for_type (type : RegisterType) : Except Abort DexOpcode :=
  match type with
  | .ZERO
  | .NORMAL =>
    .ok .OPCODE_MOVE_16
  | .OBJECT =>
    .ok .OPCODE_MOVE_OBJECT_16
  | .WIDE =>
    .ok .OPCODE_MOVE_WIDE_16
  | .UNKNOWN
  | .CONFLICT =>
    .error .cannot_generate_move
  | .SIZE =>
    .error .not_reached

/-- The move of `src` to `dest` for a register of kind `type`: `gen_move`. -/
def gen_move (type : RegisterType) (dest src : reg_t) : Except Abort IRInstruction := do
  let op ← move_op_for_type type
  let insn := IRInstruction.new op
  let insn := insn.set_dest dest
  let insn := insn.set_src 0 src
  return insn

/-! ## Classifiers -/

/-- The kind a constant load writes: `const_dest_type` (lines 90-96). -/
def const_dest_type (insn : IRInstruction) : RegisterType :=
  if insn.literal = 0 then .ZERO else .NORMAL

/-- What `dest_reg_type` returns: the kind written to the destination register,
or the abort of the assertion the opcode runs into (lines 98-405). -/
def dest_reg_type (insn : IRInstruction) : Except Abort RegisterType :=
  match insn.opcode with
  | .OPCODE_NOP =>
    .error .no_dest
  | .OPCODE_MOVE =>
    .ok .NORMAL
  | .OPCODE_MOVE_WIDE =>
    .ok .WIDE
  | .OPCODE_MOVE_OBJECT =>
    .ok .OBJECT
  | .OPCODE_MOVE_RESULT =>
    .ok .NORMAL
  | .OPCODE_MOVE_RESULT_WIDE =>
    .ok .WIDE
  | .OPCODE_MOVE_RESULT_OBJECT
  | .OPCODE_MOVE_EXCEPTION =>
    .ok .OBJECT
  | .OPCODE_RETURN_VOID
  | .OPCODE_RETURN
  | .OPCODE_RETURN_WIDE
  | .OPCODE_RETURN_OBJECT =>
    .error .no_dest
  | .OPCODE_CONST_4 =>
    .ok (const_dest_type insn)
  | .OPCODE_MONITOR_ENTER
  | .OPCODE_MONITOR_EXIT
  | .OPCODE_THROW
  | .OPCODE_GOTO =>
    .error .no_dest
  | .OPCODE_NEG_INT
  | .OPCODE_NOT_INT =>
    .ok .NORMAL
  | .OPCODE_NEG_LONG
  | .OPCODE_NOT_LONG =>
    .ok .WIDE
  | .OPCODE_NEG_FLOAT =>
    .ok .NORMAL
  | .OPCODE_NEG_DOUBLE =>
    .ok .WIDE
  | .OPCODE_INT_TO_LONG =>
    .ok .WIDE
  | .OPCODE_INT_TO_FLOAT =>
    .ok .NORMAL
  | .OPCODE_INT_TO_DOUBLE =>
    .ok .WIDE
  | .OPCODE_LONG_TO_INT
  | .OPCODE_LONG_TO_FLOAT =>
    .ok .NORMAL
  | .OPCODE_LONG_TO_DOUBLE =>
    .ok .WIDE
  | .OPCODE_FLOAT_TO_INT =>
    .ok .NORMAL
  | .OPCODE_FLOAT_TO_LONG
  | .OPCODE_FLOAT_TO_DOUBLE =>
    .ok .WIDE
  | .OPCODE_DOUBLE_TO_INT =>
    .ok .NORMAL
  | .OPCODE_DOUBLE_TO_LONG =>
    .ok .WIDE
  | .OPCODE_DOUBLE_TO_FLOAT =>
    .ok .NORMAL
  | .OPCODE_INT_TO_BYTE
  | .OPCODE_INT_TO_CHAR
  | .OPCODE_INT_TO_SHORT =>
    .ok .NORMAL
  | .OPCODE_ADD_INT_2ADDR
  | .OPCODE_SUB_INT_2ADDR
  | .OPCODE_MUL_INT_2ADDR
  | .OPCODE_DIV_INT_2ADDR
  | .OPCODE_REM_INT_2ADDR
  | .OPCODE_AND_INT_2ADDR
  | .OPCODE_OR_INT_2ADDR
  | .OPCODE_XOR_INT_2ADDR
  | .OPCODE_SHL_INT_2ADDR
  | .OPCODE_SHR_INT_2ADDR
  | .OPCODE_USHR_INT_2ADDR
  | .OPCODE_ADD_LONG_2ADDR
  | .OPCODE_SUB_LONG_2ADDR
  | .OPCODE_MUL_LONG_2ADDR
  | .OPCODE_DIV_LONG_2ADDR
  | .OPCODE_REM_LONG_2ADDR
  | .OPCODE_AND_LONG_2ADDR
  | .OPCODE_OR_LONG_2ADDR
  | .OPCODE_XOR_LONG_2ADDR
  | .OPCODE_SHL_LONG_2ADDR
  | .OPCODE_SHR_LONG_2ADDR
  | .OPCODE_USHR_LONG_2ADDR
  | .OPCODE_ADD_FLOAT_2ADDR
  | .OPCODE_SUB_FLOAT_2ADDR
  | .OPCODE_MUL_FLOAT_2ADDR
  | .OPCODE_DIV_FLOAT_2ADDR
  | .OPCODE_REM_FLOAT_2ADDR
  | .OPCODE_ADD_DOUBLE_2ADDR
  | .OPCODE_SUB_DOUBLE_2ADDR
  | .OPCODE_MUL_DOUBLE_2ADDR
  | .OPCODE_DIV_DOUBLE_2ADDR
  | .OPCODE_REM_DOUBLE_2ADDR =>
    .error .unhandled_opcode
  | .OPCODE_ARRAY_LENGTH =>
    .ok .NORMAL
  | .OPCODE_MOVE_FROM16 =>
    .ok .NORMAL
  | .OPCODE_MOVE_WIDE_FROM16 =>
    .ok .WIDE
  | .OPCODE_MOVE_OBJECT_FROM16 =>
    .ok .OBJECT
  | .OPCODE_CONST_16
  | .OPCODE_CONST_HIGH16 =>
    .ok (const_dest_type insn)
  | .OPCODE_CONST_WIDE_16
  | .OPCODE_CONST_WIDE_HIGH16 =>
    .ok .WIDE
  | .OPCODE_GOTO_16 =>
    .error .no_dest
  | .OPCODE_CMPL_FLOAT
  | .OPCODE_CMPG_FLOAT
  | .OPCODE_CMPL_DOUBLE
  | .OPCODE_CMPG_DOUBLE
  | .OPCODE_CMP_LONG =>
    .ok .NORMAL
  | .OPCODE_IF_EQ
  | .OPCODE_IF_NE
  | .OPCODE_IF_LT
  | .OPCODE_IF_GE
  | .OPCODE_IF_GT
  | .OPCODE_IF_LE
  | .OPCODE_IF_EQZ
  | .OPCODE_IF_NEZ
  | .OPCODE_IF_LTZ
  | .OPCODE_IF_GEZ
  | .OPCODE_IF_GTZ
  | .OPCODE_IF_LEZ =>
    .error .no_dest
  | .OPCODE_AGET =>
    .ok .NORMAL
  | .OPCODE_AGET_WIDE =>
    .ok .WIDE
  | .OPCODE_AGET_OBJECT =>
    .ok .OBJECT
  | .OPCODE_AGET_BOOLEAN
  | .OPCODE_AGET_BYTE
  | .OPCODE_AGET_CHAR
  | .OPCODE_AGET_SHORT =>
    .ok .NORMAL
  | .OPCODE_APUT
  | .OPCODE_APUT_WIDE
  | .OPCODE_APUT_OBJECT
  | .OPCODE_APUT_BOOLEAN
  | .OPCODE_APUT_BYTE
  | .OPCODE_APUT_CHAR
  | .OPCODE_APUT_SHORT =>
    .error .no_dest
  | .OPCODE_ADD_INT
  | .OPCODE_SUB_INT
  | .OPCODE_MUL_INT
  | .OPCODE_DIV_INT
  | .OPCODE_REM_INT
  | .OPCODE_AND_INT
  | .OPCODE_OR_INT
  | .OPCODE_XOR_INT
  | .OPCODE_SHL_INT
  | .OPCODE_SHR_INT
  | .OPCODE_USHR_INT =>
    .ok .NORMAL
  | .OPCODE_ADD_LONG
  | .OPCODE_SUB_LONG
  | .OPCODE_MUL_LONG
  | .OPCODE_DIV_LONG
  | .OPCODE_REM_LONG
  | .OPCODE_AND_LONG
  | .OPCODE_OR_LONG
  | .OPCODE_XOR_LONG
  | .OPCODE_SHL_LONG
  | .OPCODE_SHR_LONG
  | .OPCODE_USHR_LONG =>
    .ok .WIDE
  | .OPCODE_ADD_FLOAT
  | .OPCODE_SUB_FLOAT
  | .OPCODE_MUL_FLOAT
  | .OPCODE_DIV_FLOAT
  | .OPCODE_REM_FLOAT =>
    .ok .NORMAL
  | .OPCODE_ADD_DOUBLE
  | .OPCODE_SUB_DOUBLE
  | .OPCODE_MUL_DOUBLE
  | .OPCODE_DIV_DOUBLE
  | .OPCODE_REM_DOUBLE =>
    .ok .WIDE
  | .OPCODE_ADD_INT_LIT16
  | .OPCODE_RSUB_INT
  | .OPCODE_MUL_INT_LIT16
  | .OPCODE_DIV_INT_LIT16
  | .OPCODE_REM_INT_LIT16
  | .OPCODE_AND_INT_LIT16
  | .OPCODE_OR_INT_LIT16
  | .OPCODE_XOR_INT_LIT16
  | .OPCODE_ADD_INT_LIT8
  | .OPCODE_RSUB_INT_LIT8
  | .OPCODE_MUL_INT_LIT8
  | .OPCODE_DIV_INT_LIT8
  | .OPCODE_REM_INT_LIT8
  | .OPCODE_AND_INT_LIT8
  | .OPCODE_OR_INT_LIT8
  | .OPCODE_XOR_INT_LIT8
  | .OPCODE_SHL_INT_LIT8
  | .OPCODE_SHR_INT_LIT8
  | .OPCODE_USHR_INT_LIT8 =>
    .ok .NORMAL
  | .OPCODE_MOVE_16 =>
    .ok .NORMAL
  | .OPCODE_MOVE_WIDE_16 =>
    .ok .WIDE
  | .OPCODE_MOVE_OBJECT_16 =>
    .ok .OBJECT
  | .OPCODE_CONST =>
    .ok (const_dest_type insn)
  | .OPCODE_CONST_WIDE_32 =>
    .ok .WIDE
  | .OPCODE_FILL_ARRAY_DATA
  | .OPCODE_GOTO_32
  | .OPCODE_PACKED_SWITCH
  | .OPCODE_SPARSE_SWITCH =>
    .error .no_dest
  | .OPCODE_CONST_WIDE =>
    .ok .WIDE
  | .OPCODE_IGET =>
    .ok .NORMAL
  | .OPCODE_IGET_WIDE =>
    .ok .WIDE
  | .OPCODE_IGET_OBJECT =>
    .ok .OBJECT
  | .OPCODE_IGET_BOOLEAN
  | .OPCODE_IGET_BYTE
  | .OPCODE_IGET_CHAR
  | .OPCODE_IGET_SHORT =>
    .ok .NORMAL
  | .OPCODE_IPUT
  | .OPCODE_IPUT_WIDE
  | .OPCODE_IPUT_OBJECT
  | .OPCODE_IPUT_BOOLEAN
  | .OPCODE_IPUT_BYTE
  | .OPCODE_IPUT_CHAR
  | .OPCODE_IPUT_SHORT =>
    .error .no_dest
  | .OPCODE_SGET =>
    .ok .NORMAL
  | .OPCODE_SGET_WIDE =>
    .ok .WIDE
  | .OPCODE_SGET_OBJECT =>
    .ok .OBJECT
  | .OPCODE_SGET_BOOLEAN
  | .OPCODE_SGET_BYTE
  | .OPCODE_SGET_CHAR
  | .OPCODE_SGET_SHORT =>
    .ok .NORMAL
  | .OPCODE_SPUT
  | .OPCODE_SPUT_WIDE
  | .OPCODE_SPUT_OBJECT
  | .OPCODE_SPUT_BOOLEAN
  | .OPCODE_SPUT_BYTE
  | .OPCODE_SPUT_CHAR
  | .OPCODE_SPUT_SHORT =>
    .error .no_dest
  | .OPCODE_INVOKE_VIRTUAL
  | .OPCODE_INVOKE_SUPER
  | .OPCODE_INVOKE_DIRECT
  | .OPCODE_INVOKE_STATIC
  | .OPCODE_INVOKE_INTERFACE
  | .OPCODE_INVOKE_VIRTUAL_RANGE
  | .OPCODE_INVOKE_SUPER_RANGE
  | .OPCODE_INVOKE_DIRECT_RANGE
  | .OPCODE_INVOKE_STATIC_RANGE
  | .OPCODE_INVOKE_INTERFACE_RANGE =>
    .error .no_dest
  | .OPCODE_CONST_STRING
  | .OPCODE_CONST_STRING_JUMBO
  | .OPCODE_CONST_CLASS
  | .OPCODE_CHECK_CAST =>
    .ok .OBJECT
  | .OPCODE_INSTANCE_OF =>
    .ok .NORMAL
  | .OPCODE_NEW_INSTANCE
  | .OPCODE_NEW_ARRAY
  | .OPCODE_FILLED_NEW_ARRAY
  | .OPCODE_FILLED_NEW_ARRAY_RANGE =>
    .ok .OBJECT
  | .IOPCODE_LOAD_PARAM =>
    .ok .NORMAL
  | .IOPCODE_LOAD_PARAM_OBJECT =>
    .ok .OBJECT
  | .IOPCODE_LOAD_PARAM_WIDE =>
    .ok .WIDE
  | .UNLISTED =>
    .error .unknown_opcode

/-- The kind of operand `i` of a non-range invoke: `invoke_src_type` (lines 407-429).
`types.at(i)` is the checked access of the argument list. -/
def invoke_src_type (insn : IRInstruction) (i : reg_t) : Except Abort RegisterType := do
  let method ← insn.get_method
  let mut i := i
  if insn.opcode ≠ .OPCODE_INVOKE_STATIC then
    if i = 0 then
      return .OBJECT
    else
      i := i - 1
  let types := method.get_type_list
  match types.get? i with
  | none => .error .out_of_range
  | some type =>
    if is_wide_type type then
      return .WIDE
    else if is_primitive type then
      return .NORMAL
    else
      return .OBJECT

/-- What `src_reg_type` returns: the kind expected in source operand `i`, or the
abort of the assertion the opcode runs into (lines 431-745). -/
def src_reg_type (insn : IRInstruction) (i : reg_t) : Except Abort RegisterType :=
  match insn.opcode with
  | .OPCODE_NOP =>
    .error .no_src
  | .OPCODE_MOVE =>
    .ok .NORMAL
  | .OPCODE_MOVE_WIDE =>
    .ok .WIDE
  | .OPCODE_MOVE_OBJECT =>
    .ok .OBJECT
  | .OPCODE_MOVE_RESULT
  | .OPCODE_MOVE_RESULT_WIDE
  | .OPCODE_MOVE_RESULT_OBJECT
  | .OPCODE_MOVE_EXCEPTION
  | .OPCODE_RETURN_VOID =>
    .error .no_src
  | .OPCODE_RETURN =>
    .ok .NORMAL
  | .OPCODE_RETURN_WIDE =>
    .ok .WIDE
  | .OPCODE_RETURN_OBJECT =>
    .ok .OBJECT
  | .OPCODE_CONST_4 =>
    .error .no_src
  | .OPCODE_MONITOR_ENTER
  | .OPCODE_MONITOR_EXIT
  | .OPCODE_THROW =>
    .ok .OBJECT
  | .OPCODE_GOTO =>
    .error .no_src
  | .OPCODE_NEG_INT
  | .OPCODE_NOT_INT =>
    .ok .NORMAL
  | .OPCODE_NEG_LONG
  | .OPCODE_NOT_LONG =>
    .ok .WIDE
  | .OPCODE_NEG_FLOAT =>
    .ok .NORMAL
  | .OPCODE_NEG_DOUBLE =>
    .ok .WIDE
  | .OPCODE_INT_TO_LONG
  | .OPCODE_INT_TO_FLOAT
  | .OPCODE_INT_TO_DOUBLE =>
    .ok .NORMAL
  | .OPCODE_LONG_TO_INT
  | .OPCODE_LONG_TO_FLOAT
  | .OPCODE_LONG_TO_DOUBLE =>
    .ok .WIDE
  | .OPCODE_FLOAT_TO_INT
  | .OPCODE_FLOAT_TO_LONG
  | .OPCODE_FLOAT_TO_DOUBLE =>
    .ok .NORMAL
  | .OPCODE_DOUBLE_TO_INT
  | .OPCODE_DOUBLE_TO_LONG
  | .OPCODE_DOUBLE_TO_FLOAT =>
    .ok .WIDE
  | .OPCODE_INT_TO_BYTE
  | .OPCODE_INT_TO_CHAR
  | .OPCODE_INT_TO_SHORT =>
    .ok .NORMAL
  | .OPCODE_ADD_INT_2ADDR
  | .OPCODE_SUB_INT_2ADDR
  | .OPCODE_MUL_INT_2ADDR
  | .OPCODE_DIV_INT_2ADDR
  | .OPCODE_REM_INT_2ADDR
  | .OPCODE_AND_INT_2ADDR
  | .OPCODE_OR_INT_2ADDR
  | .OPCODE_XOR_INT_2ADDR
  | .OPCODE_SHL_INT_2ADDR
  | .OPCODE_SHR_INT_2ADDR
  | .OPCODE_USHR_INT_2ADDR
  | .OPCODE_ADD_LONG_2ADDR
  | .OPCODE_SUB_LONG_2ADDR
  | .OPCODE_MUL_LONG_2ADDR
  | .OPCODE_DIV_LONG_2ADDR
  | .OPCODE_REM_LONG_2ADDR
  | .OPCODE_AND_LONG_2ADDR
  | .OPCODE_OR_LONG_2ADDR
  | .OPCODE_XOR_LONG_2ADDR
  | .OPCODE_SHL_LONG_2ADDR
  | .OPCODE_SHR_LONG_2ADDR
  | .OPCODE_USHR_LONG_2ADDR
  | .OPCODE_ADD_FLOAT_2ADDR
  | .OPCODE_SUB_FLOAT_2ADDR
  | .OPCODE_MUL_FLOAT_2ADDR
  | .OPCODE_DIV_FLOAT_2ADDR
  | .OPCODE_REM_FLOAT_2ADDR
  | .OPCODE_ADD_DOUBLE_2ADDR
  | .OPCODE_SUB_DOUBLE_2ADDR
  | .OPCODE_MUL_DOUBLE_2ADDR
  | .OPCODE_DIV_DOUBLE_2ADDR
  | .OPCODE_REM_DOUBLE_2ADDR =>
    .error .unhandled_opcode
  | .OPCODE_ARRAY_LENGTH =>
    .ok .OBJECT
  | .OPCODE_MOVE_FROM16 =>
    .ok .NORMAL
  | .OPCODE_MOVE_WIDE_FROM16 =>
    .ok .WIDE
  | .OPCODE_MOVE_OBJECT_FROM16 =>
    .ok .OBJECT
  | .OPCODE_CONST_16
  | .OPCODE_CONST_HIGH16
  | .OPCODE_CONST_WIDE_16
  | .OPCODE_CONST_WIDE_HIGH16
  | .OPCODE_GOTO_16 =>
    .error .no_src
  | .OPCODE_CMPL_FLOAT
  | .OPCODE_CMPG_FLOAT =>
    .ok .NORMAL
  | .OPCODE_CMPL_DOUBLE
  | .OPCODE_CMPG_DOUBLE
  | .OPCODE_CMP_LONG =>
    .ok .WIDE
  | .OPCODE_IF_EQ
  | .OPCODE_IF_NE
  | .OPCODE_IF_LT
  | .OPCODE_IF_GE
  | .OPCODE_IF_GT
  | .OPCODE_IF_LE
  | .OPCODE_IF_EQZ
  | .OPCODE_IF_NEZ
  | .OPCODE_IF_LTZ
  | .OPCODE_IF_GEZ
  | .OPCODE_IF_GTZ
  | .OPCODE_IF_LEZ =>
    .ok .UNKNOWN
  | .OPCODE_AGET
  | .OPCODE_AGET_WIDE
  | .OPCODE_AGET_OBJECT
  | .OPCODE_AGET_BOOLEAN
  | .OPCODE_AGET_BYTE
  | .OPCODE_AGET_CHAR
  | .OPCODE_AGET_SHORT =>
    .ok (if i = 0 then .OBJECT else .NORMAL)
  | .OPCODE_APUT =>
    .ok (if i = 1 then .OBJECT else .NORMAL)
  | .OPCODE_APUT_WIDE =>
    .ok (if i = 1 then .OBJECT else if i = 2 then .NORMAL else .WIDE)
  | .OPCODE_APUT_OBJECT =>
    .ok (if i ≤ 1 then .OBJECT else .NORMAL)
  | .OPCODE_APUT_BOOLEAN
  | .OPCODE_APUT_BYTE
  | .OPCODE_APUT_CHAR
  | .OPCODE_APUT_SHORT =>
    .ok (if i = 1 then .OBJECT else .NORMAL)
  | .OPCODE_ADD_INT
  | .OPCODE_SUB_INT
  | .OPCODE_MUL_INT
  | .OPCODE_DIV_INT
  | .OPCODE_REM_INT
  | .OPCODE_AND_INT
  | .OPCODE_OR_INT
  | .OPCODE_XOR_INT
  | .OPCODE_SHL_INT
  | .OPCODE_SHR_INT
  | .OPCODE_USHR_INT =>
    .ok .NORMAL
  | .OPCODE_ADD_LONG
  | .OPCODE_SUB_LONG
  | .OPCODE_MUL_LONG
  | .OPCODE_DIV_LONG
  | .OPCODE_REM_LONG
  | .OPCODE_AND_LONG
  | .OPCODE_OR_LONG
  | .OPCODE_XOR_LONG =>
    .ok .WIDE
  | .OPCODE_SHL_LONG
  | .OPCODE_SHR_LONG
  | .OPCODE_USHR_LONG =>
    .ok (if i = 0 then .WIDE else .NORMAL)
  | .OPCODE_ADD_FLOAT
  | .OPCODE_SUB_FLOAT
  | .OPCODE_MUL_FLOAT
  | .OPCODE_DIV_FLOAT
  | .OPCODE_REM_FLOAT =>
    .ok .NORMAL
  | .OPCODE_ADD_DOUBLE
  | .OPCODE_SUB_DOUBLE
  | .OPCODE_MUL_DOUBLE
  | .OPCODE_DIV_DOUBLE
  | .OPCODE_REM_DOUBLE =>
    .ok .WIDE
  | .OPCODE_ADD_INT_LIT16
  | .OPCODE_RSUB_INT
  | .OPCODE_MUL_INT_LIT16
  | .OPCODE_DIV_INT_LIT16
  | .OPCODE_REM_INT_LIT16
  | .OPCODE_AND_INT_LIT16
  | .OPCODE_OR_INT_LIT16
  | .OPCODE_XOR_INT_LIT16
  | .OPCODE_ADD_INT_LIT8
  | .OPCODE_RSUB_INT_LIT8
  | .OPCODE_MUL_INT_LIT8
  | .OPCODE_DIV_INT_LIT8
  | .OPCODE_REM_INT_LIT8
  | .OPCODE_AND_INT_LIT8
  | .OPCODE_OR_INT_LIT8
  | .OPCODE_XOR_INT_LIT8
  | .OPCODE_SHL_INT_LIT8
  | .OPCODE_SHR_INT_LIT8
  | .OPCODE_USHR_INT_LIT8 =>
    .ok .NORMAL
  | .OPCODE_MOVE_16 =>
    .ok .NORMAL
  | .OPCODE_MOVE_WIDE_16 =>
    .ok .WIDE
  | .OPCODE_MOVE_OBJECT_16 =>
    .ok .OBJECT
  | .OPCODE_CONST
  | .OPCODE_CONST_WIDE_32 =>
    .error .no_src
  | .OPCODE_FILL_ARRAY_DATA =>
    .ok .OBJECT
  | .OPCODE_GOTO_32 =>
    .error .no_src
  | .OPCODE_PACKED_SWITCH
  | .OPCODE_SPARSE_SWITCH =>
    .ok .UNKNOWN
  | .OPCODE_CONST_WIDE =>
    .error .no_src
  | .OPCODE_IGET
  | .OPCODE_IGET_WIDE
  | .OPCODE_IGET_OBJECT
  | .OPCODE_IGET_BOOLEAN
  | .OPCODE_IGET_BYTE
  | .OPCODE_IGET_CHAR
  | .OPCODE_IGET_SHORT =>
    if i = 0 then .ok .OBJECT else .error .assert_failed
  | .OPCODE_IPUT =>
    .ok (if i = 1 then .OBJECT else .NORMAL)
  | .OPCODE_IPUT_WIDE =>
    .ok (if i = 1 then .OBJECT else .WIDE)
  | .OPCODE_IPUT_OBJECT =>
    .ok .OBJECT
  | .OPCODE_IPUT_BOOLEAN
  | .OPCODE_IPUT_BYTE
  | .OPCODE_IPUT_CHAR
  | .OPCODE_IPUT_SHORT =>
    .ok (if i = 1 then .OBJECT else .NORMAL)
  | .OPCODE_SGET
  | .OPCODE_SGET_WIDE
  | .OPCODE_SGET_OBJECT
  | .OPCODE_SGET_BOOLEAN
  | .OPCODE_SGET_BYTE
  | .OPCODE_SGET_CHAR
  | .OPCODE_SGET_SHORT =>
    .error .no_src
  | .OPCODE_SPUT =>
    .ok .NORMAL
  | .OPCODE_SPUT_WIDE =>
    .ok .WIDE
  | .OPCODE_SPUT_OBJECT =>
    .ok .OBJECT
  | .OPCODE_SPUT_BOOLEAN
  | .OPCODE_SPUT_BYTE
  | .OPCODE_SPUT_CHAR
  | .OPCODE_SPUT_SHORT =>
    .ok .NORMAL
  | .OPCODE_INVOKE_VIRTUAL
  | .OPCODE_INVOKE_SUPER
  | .OPCODE_INVOKE_DIRECT
  | .OPCODE_INVOKE_STATIC
  | .OPCODE_INVOKE_INTERFACE =>
    invoke_src_type insn i
  | .OPCODE_INVOKE_VIRTUAL_RANGE
  | .OPCODE_INVOKE_SUPER_RANGE
  | .OPCODE_INVOKE_DIRECT_RANGE
  | .OPCODE_INVOKE_STATIC_RANGE
  | .OPCODE_INVOKE_INTERFACE_RANGE =>
    .error .unhandled_opcode
  | .OPCODE_CONST_STRING
  | .OPCODE_CONST_STRING_JUMBO
  | .OPCODE_CONST_CLASS =>
    .error .no_src
  | .OPCODE_CHECK_CAST
  | .OPCODE_INSTANCE_OF =>
    .ok .OBJECT
  | .OPCODE_NEW_INSTANCE =>
    .error .no_src
  | .OPCODE_NEW_ARRAY =>
    .ok .NORMAL
  | .OPCODE_FILLED_NEW_ARRAY =>
    do
      let type ← insn.get_type
      let elem ← get_array_type type
      return (if is_primitive elem then .NORMAL else .OBJECT)
  | .OPCODE_FILLED_NEW_ARRAY_RANGE =>
    .error .unhandled_opcode
  | .IOPCODE_LOAD_PARAM
  | .IOPCODE_LOAD_PARAM_OBJECT
  | .IOPCODE_LOAD_PARAM_WIDE =>
    .error .no_src
  | .UNLISTED =>
    .error .unknown_opcode

/-! ## Opcode families

The families of opcodes that the properties below speak of, each a list of the
enumerators it covers. -/

/-- The constant loads `const/4`, `const/16`, `const/high16`, `const`. -/
def const_opcodes : List DexOpcode :=
  [.OPCODE_CONST_4, .OPCODE_CONST_16, .OPCODE_CONST_HIGH16, .OPCODE_CONST]

/-- The wide constant loads `const-wide/16`, `const-wide/high16`, `const-wide/32`, `const-wide`. -/
def const_wide_opcodes : List DexOpcode :=
  [.OPCODE_CONST_WIDE_16, .OPCODE_CONST_WIDE_HIGH16, .OPCODE_CONST_WIDE_32, .OPCODE_CONST_WIDE]

/-- The `-wide` opcodes that have a destination: the wide moves, `move-result-wide`,
the wide constants, the wide reads and `load-param-wide`. -/
def wide_dest_opcodes : List DexOpcode :=
  [.OPCODE_MOVE_WIDE, .OPCODE_MOVE_WIDE_FROM16, .OPCODE_MOVE_WIDE_16, .OPCODE_MOVE_RESULT_WIDE,
   .OPCODE_CONST_WIDE_16, .OPCODE_CONST_WIDE_HIGH16, .OPCODE_CONST_WIDE_32, .OPCODE_CONST_WIDE,
   .OPCODE_AGET_WIDE, .OPCODE_IGET_WIDE, .OPCODE_SGET_WIDE, .IOPCODE_LOAD_PARAM_WIDE]

/-- The `-object` opcodes that have a destination: the object moves,
`move-result-object`, the object reads and `load-param-object`. -/
def object_dest_opcodes : List DexOpcode :=
  [.OPCODE_MOVE_OBJECT, .OPCODE_MOVE_OBJECT_FROM16, .OPCODE_MOVE_OBJECT_16,
   .OPCODE_MOVE_RESULT_OBJECT, .OPCODE_AGET_OBJECT, .OPCODE_IGET_OBJECT, .OPCODE_SGET_OBJECT,
   .IOPCODE_LOAD_PARAM_OBJECT]

/-- The returns: `return-void`, `return`, `return-wide`, `return-object`. -/
def return_opcodes : List DexOpcode :=
  [.OPCODE_RETURN_VOID, .OPCODE_RETURN, .OPCODE_RETURN_WIDE, .OPCODE_RETURN_OBJECT]

/-- The gotos: `goto`, `goto/16`, `goto/32`. -/
def goto_opcodes : List DexOpcode :=
  [.OPCODE_GOTO, .OPCODE_GOTO_16, .OPCODE_GOTO_32]

/-- The conditional branches `if-*` and `if-*z`. -/
def if_opcodes : List DexOpcode :=
  [.OPCODE_IF_EQ, .OPCODE_IF_NE, .OPCODE_IF_LT, .OPCODE_IF_GE, .OPCODE_IF_GT, .OPCODE_IF_LE,
   .OPCODE_IF_EQZ, .OPCODE_IF_NEZ, .OPCODE_IF_LTZ, .OPCODE_IF_GEZ, .OPCODE_IF_GTZ,
   .OPCODE_IF_LEZ]

/-- The array reads `aget*`. -/
def aget_opcodes : List DexOpcode :=
  [.OPCODE_AGET, .OPCODE_AGET_WIDE, .OPCODE_AGET_OBJECT, .OPCODE_AGET_BOOLEAN,
   .OPCODE_AGET_BYTE, .OPCODE_AGET_CHAR, .OPCODE_AGET_SHORT]

/-- The array writes `aput*`. -/
def aput_opcodes : List DexOpcode :=
  [.OPCODE_APUT, .OPCODE_APUT_WIDE, .OPCODE_APUT_OBJECT, .OPCODE_APUT_BOOLEAN,
   .OPCODE_APUT_BYTE, .OPCODE_APUT_CHAR, .OPCODE_APUT_SHORT]

/-- The instance reads `iget*`. -/
def iget_opcodes : List DexOpcode :=
  [.OPCODE_IGET, .OPCODE_IGET_WIDE, .OPCODE_IGET_OBJECT, .OPCODE_IGET_BOOLEAN,
   .OPCODE_IGET_BYTE, .OPCODE_IGET_CHAR, .OPCODE_IGET_SHORT]

/-- The instance writes `iput*`. -/
def iput_opcodes : List DexOpcode :=
  [.OPCODE_IPUT, .OPCODE_IPUT_WIDE, .OPCODE_IPUT_OBJECT, .OPCODE_IPUT_BOOLEAN,
   .OPCODE_IPUT_BYTE, .OPCODE_IPUT_CHAR, .OPCODE_IPUT_SHORT]

/-- The static reads `sget*`. -/
def sget_opcodes : List DexOpcode :=
  [.OPCODE_SGET, .OPCODE_SGET_WIDE, .OPCODE_SGET_OBJECT, .OPCODE_SGET_BOOLEAN,
   .OPCODE_SGET_BYTE, .OPCODE_SGET_CHAR, .OPCODE_SGET_SHORT]

/-- The static writes `sput*`. -/
def sput_opcodes : List DexOpcode :=
  [.OPCODE_SPUT, .OPCODE_SPUT_WIDE, .OPCODE_SPUT_OBJECT, .OPCODE_SPUT_BOOLEAN,
   .OPCODE_SPUT_BYTE, .OPCODE_SPUT_CHAR, .OPCODE_SPUT_SHORT]

/-- The non-range invokes: `invoke-virtual`, `-super`, `-direct`, `-static`, `-interface`. -/
def invoke_opcodes : List DexOpcode :=
  [.OPCODE_INVOKE_VIRTUAL, .OPCODE_INVOKE_SUPER, .OPCODE_INVOKE_DIRECT, .OPCODE_INVOKE_STATIC,
   .OPCODE_INVOKE_INTERFACE]

/-- The range invokes `invoke-*/range`. -/
def invoke_range_opcodes : List DexOpcode :=
  [.OPCODE_INVOKE_VIRTUAL_RANGE, .OPCODE_INVOKE_SUPER_RANGE, .OPCODE_INVOKE_DIRECT_RANGE,
   .OPCODE_INVOKE_STATIC_RANGE, .OPCODE_INVOKE_INTERFACE_RANGE]

/-- The 2ADDR arithmetic opcodes. -/
def two_addr_opcodes : List DexOpcode :=
  [.OPCODE_ADD_INT_2ADDR, .OPCODE_SUB_INT_2ADDR, .OPCODE_MUL_INT_2ADDR, .OPCODE_DIV_INT_2ADDR,
   .OPCODE_REM_INT_2ADDR, .OPCODE_AND_INT_2ADDR, .OPCODE_OR_INT_2ADDR, .OPCODE_XOR_INT_2ADDR,
   .OPCODE_SHL_INT_2ADDR, .OPCODE_SHR_INT_2ADDR, .OPCODE_USHR_INT_2ADDR,
   .OPCODE_ADD_LONG_2ADDR, .OPCODE_SUB_LONG_2ADDR, .OPCODE_MUL_LONG_2ADDR,
   .OPCODE_DIV_LONG_2ADDR, .OPCODE_REM_LONG_2ADDR, .OPCODE_AND_LONG_2ADDR,
   .OPCODE_OR_LONG_2ADDR, .OPCODE_XOR_LONG_2ADDR, .OPCODE_SHL_LONG_2ADDR,
   .OPCODE_SHR_LONG_2ADDR, .OPCODE_USHR_LONG_2ADDR, .OPCODE_ADD_FLOAT_2ADDR,
   .OPCODE_SUB_FLOAT_2ADDR, .OPCODE_MUL_FLOAT_2ADDR, .OPCODE_DIV_FLOAT_2ADDR,
   .OPCODE_REM_FLOAT_2ADDR, .OPCODE_ADD_DOUBLE_2ADDR, .OPCODE_SUB_DOUBLE_2ADDR,
   .OPCODE_MUL_DOUBLE_2ADDR, .OPCODE_DIV_DOUBLE_2ADDR, .OPCODE_REM_DOUBLE_2ADDR]

/-- The pseudo-opcodes `load-param`, `load-param-object`, `load-param-wide`. -/
def load_param_opcodes : List DexOpcode :=
  [.IOPCODE_LOAD_PARAM, .IOPCODE_LOAD_PARAM_OBJECT, .IOPCODE_LOAD_PARAM_WIDE]

/-- The long shifts `shl-long`, `shr-long`, `ushr-long`. -/
def long_shift_opcodes : List DexOpcode :=
  [.OPCODE_SHL_LONG, .OPCODE_SHR_LONG, .OPCODE_USHR_LONG]

/-- The long binary opcodes other than the shifts: `add`, `sub`, `mul`, `div`, `rem`,
`and`, `or`, `xor` `-long`. -/
def long_binary_opcodes : List DexOpcode :=
  [.OPCODE_ADD_LONG, .OPCODE_SUB_LONG, .OPCODE_MUL_LONG, .OPCODE_DIV_LONG, .OPCODE_REM_LONG,
   .OPCODE_AND_LONG, .OPCODE_OR_LONG, .OPCODE_XOR_LONG]

/-- The opcodes on which a destination query is said to fail: `nop`, the returns,
the gotos, the conditional branches, the monitor opcodes, `throw`, the array,
instance and static writes, the switches, `fill-array-data`, the invokes (range
or not) and the 2ADDR arithmetic opcodes. -/
def dest_failing_opcodes : List DexOpcode :=
  [.OPCODE_NOP] ++ return_opcodes ++ goto_opcodes ++ if_opcodes ++
    [.OPCODE_MONITOR_ENTER, .OPCODE_MONITOR_EXIT, .OPCODE_THROW] ++
    aput_opcodes ++ iput_opcodes ++ sput_opcodes ++
    [.OPCODE_PACKED_SWITCH, .OPCODE_SPARSE_SWITCH, .OPCODE_FILL_ARRAY_DATA] ++
    invoke_opcodes ++ invoke_range_opcodes ++ two_addr_opcodes

/-- The opcodes on which a source query is said to fail at every index: the
constants (`const*`, `const-wide*`, `const-string`, `const-string/jumbo`,
`const-class`), the static reads, `new-instance`, the `load-param*`
pseudo-opcodes, the 2ADDR opcodes, the range invokes and
`filled-new-array/range`. -/
def src_failing_opcodes : List DexOpcode :=
  const_opcodes ++ const_wide_opcodes ++
    [.OPCODE_CONST_STRING, .OPCODE_CONST_STRING_JUMBO, .OPCODE_CONST_CLASS] ++
    sget_opcodes ++ [.OPCODE_NEW_INSTANCE] ++ load_param_opcodes ++
    two_addr_opcodes ++ invoke_range_opcodes ++ [.OPCODE_FILLED_NEW_ARRAY_RANGE]

/-- The kind of a proto argument type in the words of the spec: WIDE if the type
is 64-bit, NORMAL if it is a non-wide primitive, OBJECT otherwise. -/
def kind_of_type (t : DexType) : RegisterType :=
  if is_wide_type t then .WIDE
  else if is_primitive t ∧ ¬ is_wide_type t then .NORMAL
  else .OBJECT

/-- The primitive types that the conversion opcodes name. -/
inductive Primitive
  | int
  | long
  | float
  | double
  | byte
  | char
  | short
  deriving DecidableEq, Repr

/-- The width of a primitive in the words of the spec: WIDE for long and double,
NORMAL for every other primitive. -/
def Primitive.width : Primitive → RegisterType
  | .long => .WIDE
  | .double => .WIDE
  | _ => .NORMAL

/-- The conversion opcodes X-to-Y, each with its input type X and its output type Y. -/
def conversion_opcodes : List (DexOpcode × Primitive × Primitive) :=
  [(.OPCODE_INT_TO_LONG, .int, .long), (.OPCODE_INT_TO_FLOAT, .int, .float),
   (.OPCODE_INT_TO_DOUBLE, .int, .double), (.OPCODE_LONG_TO_INT, .long, .int),
   (.OPCODE_LONG_TO_FLOAT, .long, .float), (.OPCODE_LONG_TO_DOUBLE, .long, .double),
   (.OPCODE_FLOAT_TO_INT, .float, .int), (.OPCODE_FLOAT_TO_LONG, .float, .long),
   (.OPCODE_FLOAT_TO_DOUBLE, .float, .double), (.OPCODE_DOUBLE_TO_INT, .double, .int),
   (.OPCODE_DOUBLE_TO_LONG, .double, .long), (.OPCODE_DOUBLE_TO_FLOAT, .double, .float),
   (.OPCODE_INT_TO_BYTE, .int, .byte), (.OPCODE_INT_TO_CHAR, .int, .char),
   (.OPCODE_INT_TO_SHORT, .int, .short)]

/-- The number of strict changes of a register's kind when the kinds `xs` are
joined into it one after the other, starting from the kind `k`; a join that
aborts ends the count. -/
def join_changes : RegisterType → List RegisterType → Nat
  | _, [] => 0
  | k, x :: xs =>
    match join k x with
    | .ok k' => (if k' = k then 0 else 1) + join_changes k' xs
    | .error _ => 0

/-- The height of a kind above CONFLICT in the diagram: the number of edges of the
longest chain from CONFLICT up to it. -/
def height : RegisterType → Nat
  | .CONFLICT => 0
  | .OBJECT => 1
  | .NORMAL => 1
  | .WIDE => 1
  | .ZERO => 2
  | .UNKNOWN => 3
  | .SIZE => 0

/-! ## The generated order is decided by `leb` -/

theorem Lattice.le_of_mem_ancestors (L : Lattice) :
    ∀ (n : Nat) (a b : RegisterType), b ∈ L.ancestors n a → L.Le a b := by
  intro n
  induction n with
  | zero =>
    intro a b h
    simp only [Lattice.ancestors, List.mem_singleton] at h
    subst h
    exact Relation.ReflTransGen.refl
  | succ n ih =>
    intro a b h
    simp only [Lattice.ancestors, List.mem_cons, List.mem_flatten, List.mem_map] at h
    rcases h with h | ⟨l, ⟨p, hp, rfl⟩, hb⟩
    · subst h
      exact Relation.ReflTransGen.refl
    · have hcov : L.covers a p := by
        simp only [Lattice.parents, List.mem_map, List.mem_filter, decide_eq_true_eq] at hp
        rcases hp with ⟨⟨x, y⟩, ⟨hmem, hx⟩, hy⟩
        simp only at hx hy
        subst hx
        subst hy
        exact hmem
      exact Relation.ReflTransGen.head hcov (ih p b hb)

theorem Lattice.le_of_leb (L : Lattice) (a b : RegisterType) (h : L.leb a b = true) :
    L.Le a b :=
  L.le_of_mem_ancestors L.edges.length a b (by simpa [Lattice.leb] using h)

namespace register_type_impl

theorem leb_refl : ∀ a : RegisterType, lattice.leb a a = true := by decide

theorem leb_step : ∀ a b c : RegisterType,
    lattice.leb a b = true → lattice.covers b c → lattice.leb a c = true := by decide

theorem leb_of_le {a b : RegisterType} (h : lattice.Le a b) : lattice.leb a b = true := by
  induction h with
  | refl => exact leb_refl a
  | tail _ hbc ih => exact leb_step a _ _ ih hbc

theorem le_iff_leb (a b : RegisterType) : lattice.Le a b ↔ lattice.leb a b = true :=
  ⟨leb_of_le, lattice.le_of_leb a b⟩

end register_type_impl

open register_type_impl

/-! ## The lattice laws -/

/-- Claim C1: on the six lattice elements the join of the lattice built from the
element list and edge list of `RegisterType.cpp` is commutative, join(a,b) =
join(b,a), and it is a kind, not an abort. -/
theorem join_comm_on_elements (a b : RegisterType)
    (ha : a ∈ lattice.elements) (hb : b ∈ lattice.elements) :
    join a b = join b a ∧ ∃ c, join a b = .ok c := by
  revert a b
  decide

/-- Commutativity at OBJECT and NORMAL, both elements of the lattice. -/
theorem join_comm_on_elements_witness :
    RegisterType.OBJECT ∈ lattice.elements ∧ RegisterType.NORMAL ∈ lattice.elements ∧
      join .OBJECT .NORMAL = join .NORMAL .OBJECT ∧ join .OBJECT .NORMAL = .ok .CONFLICT :=
  ⟨by decide, by decide,
    (join_comm_on_elements .OBJECT .NORMAL (by decide) (by decide)).1, by decide⟩

/-- Claim C2: on the six lattice elements join is associative,
join(join(a,b),c) = join(a,join(b,c)), each side being a kind. -/
theorem join_assoc_on_elements (a b c : RegisterType)
    (ha : a ∈ lattice.elements) (hb : b ∈ lattice.elements) (hc : c ∈ lattice.elements) :
    (join a b >>= fun ab => join ab c) = (join b c >>= fun bc => join a bc) ∧
      ∃ r, (join a b >>= fun ab => join ab c) = .ok r := by
  revert a b c
  decide

/-- Associativity at ZERO, OBJECT, NORMAL: both groupings end in CONFLICT. -/
theorem join_assoc_on_elements_witness :
    (join .ZERO .OBJECT >>= fun ab => join ab .NORMAL) = .ok .CONFLICT ∧
      (join .OBJECT .NORMAL >>= fun bc => join .ZERO bc) = .ok .CONFLICT :=
  ⟨by decide,
    (join_assoc_on_elements .ZERO .OBJECT .NORMAL (by decide) (by decide) (by decide)).1 ▸
      (by decide)⟩

/-- Claim C3: the six diagram values hold for the lattice of `RegisterType.cpp`:
join(ZERO,OBJECT)=OBJECT, join(ZERO,NORMAL)=NORMAL, join(OBJECT,NORMAL)=CONFLICT,
join(WIDE,ZERO)=CONFLICT, join(WIDE,NORMAL)=CONFLICT, join(WIDE,OBJECT)=CONFLICT. -/
theorem join_diagram_values :
    join .ZERO .OBJECT = .ok .OBJECT ∧
    join .ZERO .NORMAL = .ok .NORMAL ∧
    join .OBJECT .NORMAL = .ok .CONFLICT ∧
    join .WIDE .ZERO = .ok .CONFLICT ∧
    join .WIDE .NORMAL = .ok .CONFLICT ∧
    join .WIDE .OBJECT = .ok .CONFLICT := by
  decide

/-- Claim C5: UNKNOWN is the identity of join: for every kind a among the six
lattice elements join(a, UNKNOWN) = a and join(UNKNOWN, a) = a. -/
theorem join_unknown_identity (a : RegisterType) (ha : a ∈ lattice.elements) :
    join a .UNKNOWN = .ok a ∧ join .UNKNOWN a = .ok a := by
  revert a
  decide

/-- UNKNOWN is the identity at WIDE. -/
theorem join_unknown_identity_witness :
    join .WIDE .UNKNOWN = .ok .WIDE ∧ join .UNKNOWN .WIDE = .ok .WIDE :=
  join_unknown_identity .WIDE (by decide)

/-- Claim C6: CONFLICT is absorbing for join: for every kind a among the six
lattice elements join(a, CONFLICT) = CONFLICT and join(CONFLICT, a) = CONFLICT. -/
theorem join_conflict_absorbing (a : RegisterType) (ha : a ∈ lattice.elements) :
    join a .CONFLICT = .ok .CONFLICT ∧ join .CONFLICT a = .ok .CONFLICT := by
  revert a
  decide

/-- CONFLICT absorbs UNKNOWN. -/
theorem join_conflict_absorbing_witness :
    join .UNKNOWN .CONFLICT = .ok .CONFLICT ∧ join .CONFLICT .UNKNOWN = .ok .CONFLICT :=
  join_conflict_absorbing .UNKNOWN (by decide)

/-- Claim C7: join is idempotent on the six lattice elements: join(a,a) = a. -/
theorem join_idempotent (a : RegisterType) (ha : a ∈ lattice.elements) :
    join a a = .ok a := by
  revert a
  decide

/-- Idempotence at ZERO. -/
theorem join_idempotent_witness : join .ZERO .ZERO = .ok .ZERO :=
  join_idempotent .ZERO (by decide)

/-- Claim C8: for kinds a, b among the six lattice elements, if a ≠ b, neither is
UNKNOWN, and a and b are not comparable in the order generated by the lattice
edges, then join(a,b) = CONFLICT; in particular joining WIDE with any of ZERO,
OBJECT, NORMAL, on either side, yields CONFLICT. -/
theorem join_incomparable_conflict :
    (∀ a b : RegisterType, a ∈ lattice.elements → b ∈ lattice.elements →
      a ≠ b → a ≠ .UNKNOWN → b ≠ .UNKNOWN →
      ¬ lattice.Le a b → ¬ lattice.Le b a → join a b = .ok .CONFLICT) ∧
    (∀ x : RegisterType, x = .ZERO ∨ x = .OBJECT ∨ x = .NORMAL →
      ¬ lattice.Le .WIDE x ∧ ¬ lattice.Le x .WIDE ∧
      join .WIDE x = .ok .CONFLICT ∧ join x .WIDE = .ok .CONFLICT) := by
  simp only [le_iff_leb]
  refine ⟨?_, ?_⟩
  · intro a b
    cases a <;> cases b <;> decide
  · decide

/-- OBJECT and NORMAL are distinct, not UNKNOWN and incomparable, and their join
is CONFLICT. -/
theorem join_incomparable_conflict_witness :
    ¬ lattice.Le .OBJECT .NORMAL ∧ ¬ lattice.Le .NORMAL .OBJECT ∧
      join .OBJECT .NORMAL = .ok .CONFLICT :=
  have h1 : ¬ lattice.Le .OBJECT .NORMAL := by rw [le_iff_leb]; decide
  have h2 : ¬ lattice.Le .NORMAL .OBJECT := by rw [le_iff_leb]; decide
  ⟨h1, h2, join_incomparable_conflict.1 .OBJECT .NORMAL (by decide) (by decide)
    (by decide) (by decide) (by decide) h1 h2⟩

/-- Claim C9: the reflexive-transitive closure of the seven edges passed to the
`Lattice` constructor is a partial order (reflexive, transitive, antisymmetric)
in which UNKNOWN is the unique greatest of the six listed elements and CONFLICT
the unique least one. -/
theorem lattice_order_top_bottom :
    lattice.edges.length = 7 ∧ lattice.elements.length = 6 ∧
    (∀ a, lattice.Le a a) ∧
    (∀ a b c, lattice.Le a b → lattice.Le b c → lattice.Le a c) ∧
    (∀ a b, lattice.Le a b → lattice.Le b a → a = b) ∧
    (∀ a ∈ lattice.elements, lattice.Le a .UNKNOWN) ∧
    (∀ t ∈ lattice.elements, (∀ a ∈ lattice.elements, lattice.Le a t) → t = .UNKNOWN) ∧
    (∀ a ∈ lattice.elements, lattice.Le .CONFLICT a) ∧
    (∀ t ∈ lattice.elements, (∀ a ∈ lattice.elements, lattice.Le t a) → t = .CONFLICT) := by
  refine ⟨rfl, rfl, fun _ => Relation.ReflTransGen.refl,
    fun _ _ _ hab hbc => Relation.ReflTransGen.trans hab hbc, ?_, ?_, ?_, ?_, ?_⟩
  all_goals
    simp only [le_iff_leb]
    decide

/-! ## Move synthesis and classification -/

/-- Claim C10: round trip between move synthesis and classification: for every
kind k in {NORMAL, OBJECT, WIDE} and all register numbers d, s, `gen_move`
returns an instruction whose `dest_reg_type` is k and whose `src_reg_type` at
operand 0 is k. -/
theorem gen_move_round_trip (k : RegisterType) (d s : reg_t)
    (hk : k = .NORMAL ∨ k = .OBJECT ∨ k = .WIDE) :
    ∃ insn, gen_move k d s = .ok insn ∧
      dest_reg_type insn = .ok k ∧ src_reg_type insn 0 = .ok k := by
  rcases hk with rfl | rfl | rfl <;> exact ⟨_, rfl, rfl, rfl⟩

/-- The round trip of a WIDE move from register 7 to register 300. -/
theorem gen_move_round_trip_witness :
    ∃ insn, gen_move .WIDE 300 7 = .ok insn ∧
      dest_reg_type insn = .ok .WIDE ∧ src_reg_type insn 0 = .ok .WIDE :=
  gen_move_round_trip .WIDE 300 7 (Or.inr (Or.inr rfl))

/-- Claim C11: for every kind k in {ZERO, NORMAL, OBJECT, WIDE} and all register
numbers d, s, `gen_move` succeeds and returns an instruction whose destination
register is d, whose source operand 0 is s, and whose opcode is MOVE_16 when k
is ZERO or NORMAL, MOVE_OBJECT_16 when k is OBJECT and MOVE_WIDE_16 when k is
WIDE. -/
theorem gen_move_builds_move (k : RegisterType) (d s : reg_t)
    (hk : k = .ZERO ∨ k = .NORMAL ∨ k = .OBJECT ∨ k = .WIDE) :
    ∃ insn, gen_move k d s = .ok insn ∧ insn.dest = d ∧ insn.src 0 = some s ∧
      ((k = .ZERO ∨ k = .NORMAL) → insn.opcode = .OPCODE_MOVE_16) ∧
      (k = .OBJECT → insn.opcode = .OPCODE_MOVE_OBJECT_16) ∧
      (k = .WIDE → insn.opcode = .OPCODE_MOVE_WIDE_16) := by
  rcases hk with rfl | rfl | rfl | rfl <;>
    exact ⟨_, rfl, rfl, rfl, by first | exact fun _ => rfl | simp,
      by first | exact fun _ => rfl | simp, by first | exact fun _ => rfl | simp⟩

/-- The move of a ZERO register 9 to register 70000 is a MOVE_16 from 9 to 70000. -/
theorem gen_move_builds_move_witness :
    ∃ insn, gen_move .ZERO 70000 9 = .ok insn ∧ insn.dest = 70000 ∧
      insn.src 0 = some 9 ∧ insn.opcode = .OPCODE_MOVE_16 :=
  let ⟨insn, h, hd, hs, hz, _, _⟩ := gen_move_builds_move .ZERO 70000 9 (Or.inl rfl)
  ⟨insn, h, hd, hs, hz (Or.inl rfl)⟩

/-- Claim C12: `gen_move` fails exactly when the kind is UNKNOWN, CONFLICT or the
SIZE sentinel, whatever the register numbers; for every other kind it returns
an instruction. -/
theorem gen_move_fails_iff (k : RegisterType) (d s : reg_t) :
    ((∃ e, gen_move k d s = .error e) ↔ (k = .UNKNOWN ∨ k = .CONFLICT ∨ k = .SIZE)) ∧
    ((∃ insn, gen_move k d s = .ok insn) ↔ ¬ (k = .UNKNOWN ∨ k = .CONFLICT ∨ k = .SIZE)) := by
  cases k <;> simp [gen_move, move_op_for_type, bind, Except.bind, pure, Except.pure]

/-- Claim C13: for every instruction whose opcode is const/4, const/16,
const/high16 or const, `dest_reg_type` returns ZERO if the literal is 0 and
NORMAL otherwise. -/
theorem dest_reg_type_const (insn : IRInstruction) (h : insn.opcode ∈ const_opcodes) :
    (insn.literal = 0 → dest_reg_type insn = .ok .ZERO) ∧
    (insn.literal ≠ 0 → dest_reg_type insn = .ok .NORMAL) := by
  obtain ⟨op, d, s, l, m, t⟩ := insn
  simp only [const_opcodes, List.mem_cons, List.mem_singleton, List.not_mem_nil, or_false] at h
  rcases h with rfl | rfl | rfl | rfl <;>
    exact ⟨fun h0 => by simp_all [dest_reg_type, const_dest_type],
      fun h0 => by simp_all [dest_reg_type, const_dest_type]⟩

/-- The scenarios `const/4 v0, #0`, `const/4 v0, #1` and `const/16 v0, #0`. -/
theorem dest_reg_type_const_witness :
    dest_reg_type { IRInstruction.new .OPCODE_CONST_4 with literal := 0 } = .ok .ZERO ∧
    dest_reg_type { IRInstruction.new .OPCODE_CONST_4 with literal := 1 } = .ok .NORMAL ∧
    dest_reg_type { IRInstruction.new .OPCODE_CONST_16 with literal := 0 } = .ok .ZERO :=
  ⟨(dest_reg_type_const _ (by decide)).1 rfl,
   (dest_reg_type_const { IRInstruction.new .OPCODE_CONST_4 with literal := 1 }
     (by decide)).2 (by decide),
   (dest_reg_type_const _ (by decide)).1 rfl⟩

/-- Claim C14: for every `-wide` opcode with a destination `dest_reg_type` returns
WIDE whatever the literal (a wide constant with literal 0 is WIDE, not ZERO),
and for every `-object` opcode with a destination it returns OBJECT. -/
theorem dest_reg_type_wide_object :
    (∀ insn : IRInstruction, insn.opcode ∈ wide_dest_opcodes →
      dest_reg_type insn = .ok .WIDE) ∧
    (∀ insn : IRInstruction, insn.opcode ∈ object_dest_opcodes →
      dest_reg_type insn = .ok .OBJECT) := by
  constructor
  · rintro ⟨op, d, s, l, m, t⟩ h
    simp only [wide_dest_opcodes, List.mem_cons, List.mem_singleton, List.not_mem_nil,
      or_false] at h
    rcases h with h | h | h | h | h | h | h | h | h | h | h | h <;> subst h <;> rfl
  · rintro ⟨op, d, s, l, m, t⟩ h
    simp only [object_dest_opcodes, List.mem_cons, List.mem_singleton, List.not_mem_nil,
      or_false] at h
    rcases h with h | h | h | h | h | h | h | h <;> subst h <;> rfl

/-- The scenario `const-wide/16 v0, #0`, and `move-result-object`. -/
theorem dest_reg_type_wide_object_witness :
    dest_reg_type { IRInstruction.new .OPCODE_CONST_WIDE_16 with literal := 0 } = .ok .WIDE ∧
    dest_reg_type (IRInstruction.new .OPCODE_MOVE_RESULT_OBJECT) = .ok .OBJECT :=
  ⟨dest_reg_type_wide_object.1 _ (by decide), dest_reg_type_wide_object.2 _ (by decide)⟩

/-- Claim C15: `dest_reg_type` fails for every instruction whose opcode is nop, a
return, a goto, a conditional branch, monitor-enter/exit, throw, an aput*, iput*
or sput*, a switch, fill-array-data, an invoke (range or not) or a 2ADDR
arithmetic opcode, whatever its operands and literal; and it returns a kind for
every other opcode that its switch lists. -/
theorem dest_reg_type_fails_on_no_dest :
    (∀ insn : IRInstruction, insn.opcode ∈ dest_failing_opcodes →
      ∃ e, dest_reg_type insn = .error e) ∧
    (∀ insn : IRInstruction, insn.opcode ∉ dest_failing_opcodes →
      insn.opcode ≠ .UNLISTED → ∃ k, dest_reg_type insn = .ok k) := by
  constructor
  · rintro ⟨op, d, s, l, m, t⟩ h
    dsimp only at h
    cases op <;> first | exact ⟨_, rfl⟩ | exact absurd h (by decide)
  · rintro ⟨op, d, s, l, m, t⟩ h hu
    dsimp only at h hu
    cases op <;> first | exact ⟨_, rfl⟩ | exact absurd rfl hu | exact absurd (by decide) h

/-- The destination query aborts on `return-void` and on `add-int/2addr`, and
returns NORMAL on `add-int`. -/
theorem dest_reg_type_fails_on_no_dest_witness :
    (∃ e, dest_reg_type (IRInstruction.new .OPCODE_RETURN_VOID) = .error e) ∧
    (∃ e, dest_reg_type (IRInstruction.new .OPCODE_ADD_INT_2ADDR) = .error e) ∧
    (∃ k, dest_reg_type (IRInstruction.new .OPCODE_ADD_INT) = .ok k) :=
  ⟨dest_reg_type_fails_on_no_dest.1 _ (by decide),
   dest_reg_type_fails_on_no_dest.1 _ (by decide),
   dest_reg_type_fails_on_no_dest.2 _ (by decide) (by decide)⟩

/-- Claim C16: `src_reg_type` fails at every operand index on every instruction
whose opcode is a constant (const*, const-wide*, const-string,
const-string/jumbo, const-class), a static read, new-instance, a load-param*
pseudo-opcode, a 2ADDR opcode, an invoke-*/range opcode or
filled-new-array/range. -/
theorem src_reg_type_fails_on_no_src (insn : IRInstruction) (i : reg_t)
    (h : insn.opcode ∈ src_failing_opcodes) :
    ∃ e, src_reg_type insn i = .error e := by
  obtain ⟨op, d, s, l, m, t⟩ := insn
  dsimp only at h
  cases op <;> first | exact ⟨_, rfl⟩ | exact absurd h (by decide)

/-- The source query aborts on `sget-object` at operand 0 and on `const/4` at operand 5. -/
theorem src_reg_type_fails_on_no_src_witness :
    (∃ e, src_reg_type (IRInstruction.new .OPCODE_SGET_OBJECT) 0 = .error e) ∧
    (∃ e, src_reg_type (IRInstruction.new .OPCODE_CONST_4) 5 = .error e) :=
  ⟨src_reg_type_fails_on_no_src _ 0 (by decide), src_reg_type_fails_on_no_src _ 5 (by decide)⟩

/-! ## Source operands -/

/-- Operand 0 of a non-static invoke is the receiver. -/
theorem invoke_src_type_receiver (insn : IRInstruction) (m : DexMethod)
    (hm : insn.method = some m) (hs : insn.opcode ≠ .OPCODE_INVOKE_STATIC) :
    invoke_src_type insn 0 = .ok .OBJECT := by
  simp [invoke_src_type, IRInstruction.get_method, hm, hs, bind, Except.bind, pure,
    Except.pure]

/-- Operand `j + 1` of a non-static invoke is classified by proto argument `j`. -/
theorem invoke_src_type_shifted (insn : IRInstruction) (m : DexMethod) (j : Nat)
    (hm : insn.method = some m) (hs : insn.opcode ≠ .OPCODE_INVOKE_STATIC) :
    invoke_src_type insn (j + 1) =
      match m.get_type_list[j]? with
      | none => .error .out_of_range
      | some t => .ok (kind_of_type t) := by
  simp only [invoke_src_type, IRInstruction.get_method, hm, bind, Except.bind, pure,
    Except.pure, hs, ne_eq, not_false_eq_true, if_true, Nat.add_one_ne_zero, if_false,
    Nat.add_sub_cancel, List.get?_eq_getElem?]
  generalize m.get_type_list[j]? = o
  rcases o with _ | t
  · rfl
  · cases h1 : is_wide_type t <;> cases h2 : is_primitive t <;> simp [kind_of_type, h1, h2]

/-- Operand `j` of `invoke-static` is classified by proto argument `j`. -/
theorem invoke_src_type_static (insn : IRInstruction) (m : DexMethod) (j : Nat)
    (hm : insn.method = some m) (hs : insn.opcode = .OPCODE_INVOKE_STATIC) :
    invoke_src_type insn j =
      match m.get_type_list[j]? with
      | none => .error .out_of_range
      | some t => .ok (kind_of_type t) := by
  simp only [invoke_src_type, IRInstruction.get_method, hm, bind, Except.bind, pure,
    Except.pure, hs, ne_eq, not_true_eq_false, if_false, List.get?_eq_getElem?]
  generalize m.get_type_list[j]? = o
  rcases o with _ | t
  · rfl
  · cases h1 : is_wide_type t <;> cases h2 : is_primitive t <;> simp [kind_of_type, h1, h2]

/-- On the non-range invokes `src_reg_type` is `invoke_src_type`. -/
theorem src_reg_type_invoke (insn : IRInstruction) (i : reg_t)
    (h : insn.opcode ∈ invoke_opcodes) :
    src_reg_type insn i = invoke_src_type insn i := by
  obtain ⟨op, d, s, l, m, t⟩ := insn
  simp only [invoke_opcodes, List.mem_cons, List.mem_singleton, List.not_mem_nil, or_false] at h
  rcases h with h | h | h | h | h <;> subst h <;> rfl

/-- Claim C17, as stated, fails: on `move` with its one source operand the index 1
is out of range, and so are index 2 on `aget` and `iput` and index 3 on `aput`,
yet `src_reg_type` returns a kind there. -/
theorem src_reg_type_out_of_range_returns :
    src_reg_type
      { opcode := .OPCODE_MOVE, dest := 0, srcs := [1], literal := 0,
        method := none, type := none } 1 = .ok .NORMAL ∧
    src_reg_type
      { opcode := .OPCODE_AGET, dest := 0, srcs := [1, 2], literal := 0,
        method := none, type := none } 2 = .ok .NORMAL ∧
    src_reg_type
      { opcode := .OPCODE_IPUT, dest := 0, srcs := [0, 1], literal := 0,
        method := none, type := none } 2 = .ok .NORMAL ∧
    src_reg_type
      { opcode := .OPCODE_APUT, dest := 0, srcs := [0, 1, 2], literal := 0,
        method := none, type := none } 3 = .ok .NORMAL := by
  decide

/-- Claim C17, amended: `src_reg_type` checks the operand index only for iget* and
for the non-range invokes. On every iget* instruction the call fails for every
i ≥ 1; on every non-range invoke whose proto has m arguments it fails for every
i ≥ m + 1 (every i ≥ m for invoke-static); on every other opcode the index is
not checked: whenever the call returns a kind at index 0 it returns a kind at
every index i. -/
theorem src_reg_type_index_check :
    (∀ (insn : IRInstruction) (i : Nat), insn.opcode ∈ iget_opcodes → 1 ≤ i →
      ∃ e, src_reg_type insn i = .error e) ∧
    (∀ (insn : IRInstruction) (m : DexMethod) (i : Nat),
      insn.opcode ∈ invoke_opcodes → insn.method = some m →
      (if insn.opcode = .OPCODE_INVOKE_STATIC then m.get_type_list.length
        else m.get_type_list.length + 1) ≤ i →
      ∃ e, src_reg_type insn i = .error e) ∧
    (∀ (insn : IRInstruction) (i : Nat), insn.opcode ∉ iget_opcodes →
      insn.opcode ∉ invoke_opcodes → (∃ k, src_reg_type insn 0 = .ok k) →
      ∃ k, src_reg_type insn i = .ok k) := by
  refine ⟨?_, ?_, ?_⟩
  · rintro ⟨op, d, s, l, m, t⟩ i h hi
    have hi0 : i ≠ 0 := by omega
    simp only [iget_opcodes, List.mem_cons, List.mem_singleton, List.not_mem_nil,
      or_false] at h
    rcases h with h | h | h | h | h | h | h <;> subst h <;>
      exact ⟨.assert_failed, by simp [src_reg_type, hi0]⟩
  · intro insn m i hop hm hi
    rw [src_reg_type_invoke insn i hop]
    by_cases hs : insn.opcode = .OPCODE_INVOKE_STATIC
    · rw [if_pos hs] at hi
      rw [invoke_src_type_static insn m i hm hs, List.getElem?_eq_none hi]
      exact ⟨_, rfl⟩
    · rw [if_neg hs] at hi
      obtain ⟨j, rfl⟩ : ∃ j, i = j + 1 := ⟨i - 1, by omega⟩
      rw [invoke_src_type_shifted insn m j hm hs, List.getElem?_eq_none (by omega)]
      exact ⟨_, rfl⟩
  · rintro ⟨op, d, s, l, m, t⟩ i h1 h2 h0
    dsimp only at h1 h2
    cases op <;>
      first
      | exact h0
      | exact ⟨_, rfl⟩
      | exact absurd (by decide) h1
      | exact absurd (by decide) h2

/-- The index check at work: `iget v0, v1` fails at index 1, `invoke-static` with
one proto argument fails at index 1, and `move` returns NORMAL at index 7. -/
theorem src_reg_type_index_check_witness :
    (∃ e, src_reg_type (IRInstruction.new .OPCODE_IGET) 1 = .error e) ∧
    (∃ e, src_reg_type ({ IRInstruction.new .OPCODE_INVOKE_STATIC with
      method := some ⟨[.narrow_primitive]⟩ } : IRInstruction) 1 = .error e) ∧
    (∃ k, src_reg_type (IRInstruction.new .OPCODE_MOVE) 7 = .ok k) :=
  ⟨src_reg_type_index_check.1 _ 1 (by decide) (by decide),
   src_reg_type_index_check.2.1 _ ⟨[.narrow_primitive]⟩ 1 (by decide) rfl (by decide),
   src_reg_type_index_check.2.2 _ 7 (by decide) (by decide) ⟨.NORMAL, rfl⟩⟩

/-- Claim C18: for every non-range invoke with proto argument list args: if the
opcode is not invoke-static, operand 0 is OBJECT and operand i, 1 ≤ i ≤ |args|,
has the kind of args[i-1]; if the opcode is invoke-static, operand i,
0 ≤ i < |args|, has the kind of args[i]; the kind of a type being WIDE if it is
64-bit, NORMAL if it is a non-wide primitive and OBJECT otherwise. -/
theorem src_reg_type_invoke_by_proto (insn : IRInstruction) (args : List DexType)
    (hop : insn.opcode ∈ invoke_opcodes) (hm : insn.method = some ⟨args⟩) :
    (insn.opcode ≠ .OPCODE_INVOKE_STATIC →
      src_reg_type insn 0 = .ok .OBJECT ∧
      ∀ (i : Nat) (h1 : 1 ≤ i) (h2 : i ≤ args.length),
        src_reg_type insn i = .ok (kind_of_type (args.get ⟨i - 1, by omega⟩))) ∧
    (insn.opcode = .OPCODE_INVOKE_STATIC →
      ∀ (i : Nat) (h2 : i < args.length),
        src_reg_type insn i = .ok (kind_of_type (args.get ⟨i, h2⟩))) := by
  refine ⟨fun hs => ⟨?_, ?_⟩, fun hs i h2 => ?_⟩
  · rw [src_reg_type_invoke insn 0 hop]
    exact invoke_src_type_receiver insn _ hm hs
  · intro i h1 h2
    obtain ⟨j, rfl⟩ : ∃ j, i = j + 1 := ⟨i - 1, by omega⟩
    have hj : j < args.length := by omega
    rw [src_reg_type_invoke insn _ hop, invoke_src_type_shifted insn _ j hm hs]
    simp [List.getElem?_eq_getElem hj]
  · rw [src_reg_type_invoke insn _ hop, invoke_src_type_static insn _ i hm hs]
    simp [List.getElem?_eq_getElem h2]

/-- The scenario `invoke-virtual {v1, v2, v3}, LFoo;.bar(IJ)V`: the receiver is
OBJECT, the int NORMAL, the long WIDE. -/
theorem src_reg_type_invoke_by_proto_witness :
    src_reg_type
      { opcode := .OPCODE_INVOKE_VIRTUAL, dest := 0, srcs := [1, 2, 3], literal := 0,
        method := some ⟨[.narrow_primitive, .wide_primitive]⟩, type := none } 0 = .ok .OBJECT ∧
    src_reg_type
      { opcode := .OPCODE_INVOKE_VIRTUAL, dest := 0, srcs := [1, 2, 3], literal := 0,
        method := some ⟨[.narrow_primitive, .wide_primitive]⟩, type := none } 1 = .ok .NORMAL ∧
    src_reg_type
      { opcode := .OPCODE_INVOKE_VIRTUAL, dest := 0, srcs := [1, 2, 3], literal := 0,
        method := some ⟨[.narrow_primitive, .wide_primitive]⟩, type := none } 2 = .ok .WIDE :=
  have h := src_reg_type_invoke_by_proto
    { opcode := .OPCODE_INVOKE_VIRTUAL, dest := 0, srcs := [1, 2, 3], literal := 0,
      method := some ⟨[.narrow_primitive, .wide_primitive]⟩, type := none }
    [.narrow_primitive, .wide_primitive] (by decide) rfl
  ⟨(h.1 (by decide)).1, (h.1 (by decide)).2 1 (by decide) (by decide),
    (h.1 (by decide)).2 2 (by decide) (by decide)⟩

/-- Claim C19: for array writes the source kinds at indices 0, 1, 2 are
(NORMAL, OBJECT, NORMAL) for aput, aput-boolean, aput-byte, aput-char and
aput-short, (WIDE, OBJECT, NORMAL) for aput-wide, and (OBJECT, OBJECT, NORMAL)
for aput-object. -/
theorem src_reg_type_aput :
    (∀ insn : IRInstruction,
      insn.opcode ∈ [DexOpcode.OPCODE_APUT, .OPCODE_APUT_BOOLEAN, .OPCODE_APUT_BYTE,
        .OPCODE_APUT_CHAR, .OPCODE_APUT_SHORT] →
      src_reg_type insn 0 = .ok .NORMAL ∧ src_reg_type insn 1 = .ok .OBJECT ∧
        src_reg_type insn 2 = .ok .NORMAL) ∧
    (∀ insn : IRInstruction, insn.opcode = .OPCODE_APUT_WIDE →
      src_reg_type insn 0 = .ok .WIDE ∧ src_reg_type insn 1 = .ok .OBJECT ∧
        src_reg_type insn 2 = .ok .NORMAL) ∧
    (∀ insn : IRInstruction, insn.opcode = .OPCODE_APUT_OBJECT →
      src_reg_type insn 0 = .ok .OBJECT ∧ src_reg_type insn 1 = .ok .OBJECT ∧
        src_reg_type insn 2 = .ok .NORMAL) := by
  refine ⟨?_, ?_, ?_⟩
  · rintro ⟨op, d, s, l, m, t⟩ h
    simp only [List.mem_cons, List.mem_singleton, List.not_mem_nil, or_false] at h
    rcases h with h | h | h | h | h <;> subst h <;> exact ⟨rfl, rfl, rfl⟩
  · rintro ⟨op, d, s, l, m, t⟩ h
    dsimp only at h
    subst h
    exact ⟨rfl, rfl, rfl⟩
  · rintro ⟨op, d, s, l, m, t⟩ h
    dsimp only at h
    subst h
    exact ⟨rfl, rfl, rfl⟩

/-- The scenarios `aput-wide v0, v1, v2` and `aput-object v0, v1, v2`, and `aput-char`. -/
theorem src_reg_type_aput_witness :
    (src_reg_type (IRInstruction.new .OPCODE_APUT_WIDE) 0 = .ok .WIDE ∧
      src_reg_type (IRInstruction.new .OPCODE_APUT_WIDE) 1 = .ok .OBJECT ∧
      src_reg_type (IRInstruction.new .OPCODE_APUT_WIDE) 2 = .ok .NORMAL) ∧
    (src_reg_type (IRInstruction.new .OPCODE_APUT_OBJECT) 0 = .ok .OBJECT ∧
      src_reg_type (IRInstruction.new .OPCODE_APUT_OBJECT) 1 = .ok .OBJECT ∧
      src_reg_type (IRInstruction.new .OPCODE_APUT_OBJECT) 2 = .ok .NORMAL) ∧
    (src_reg_type (IRInstruction.new .OPCODE_APUT_CHAR) 0 = .ok .NORMAL ∧
      src_reg_type (IRInstruction.new .OPCODE_APUT_CHAR) 1 = .ok .OBJECT ∧
      src_reg_type (IRInstruction.new .OPCODE_APUT_CHAR) 2 = .ok .NORMAL) :=
  ⟨src_reg_type_aput.2.1 _ rfl, src_reg_type_aput.2.2 _ rfl,
   src_reg_type_aput.1 (IRInstruction.new .OPCODE_APUT_CHAR) (by decide)⟩

/-- Claim C20: for shl-long, shr-long and ushr-long `dest_reg_type` is WIDE and
`src_reg_type` is WIDE at index 0 and NORMAL at index 1; for every other long
binary opcode (add, sub, mul, div, rem, and, or, xor -long) `dest_reg_type` is
WIDE and `src_reg_type` is WIDE at index 0 and at index 1. -/
theorem long_binary_kinds :
    (∀ insn : IRInstruction, insn.opcode ∈ long_shift_opcodes →
      dest_reg_type insn = .ok .WIDE ∧ src_reg_type insn 0 = .ok .WIDE ∧
        src_reg_type insn 1 = .ok .NORMAL) ∧
    (∀ insn : IRInstruction, insn.opcode ∈ long_binary_opcodes →
      dest_reg_type insn = .ok .WIDE ∧ src_reg_type insn 0 = .ok .WIDE ∧
        src_reg_type insn 1 = .ok .WIDE) := by
  constructor
  · rintro ⟨op, d, s, l, m, t⟩ h
    simp only [long_shift_opcodes, List.mem_cons, List.mem_singleton, List.not_mem_nil,
      or_false] at h
    rcases h with h | h | h <;> subst h <;> exact ⟨rfl, rfl, rfl⟩
  · rintro ⟨op, d, s, l, m, t⟩ h
    simp only [long_binary_opcodes, List.mem_cons, List.mem_singleton, List.not_mem_nil,
      or_false] at h
    rcases h with h | h | h | h | h | h | h | h <;> subst h <;> exact ⟨rfl, rfl, rfl⟩

/-- The scenario `shl-long v0, v1, v2`, and `add-long`. -/
theorem long_binary_kinds_witness :
    (dest_reg_type (IRInstruction.new .OPCODE_SHL_LONG) = .ok .WIDE ∧
      src_reg_type (IRInstruction.new .OPCODE_SHL_LONG) 0 = .ok .WIDE ∧
      src_reg_type (IRInstruction.new .OPCODE_SHL_LONG) 1 = .ok .NORMAL) ∧
    (dest_reg_type (IRInstruction.new .OPCODE_ADD_LONG) = .ok .WIDE ∧
      src_reg_type (IRInstruction.new .OPCODE_ADD_LONG) 0 = .ok .WIDE ∧
      src_reg_type (IRInstruction.new .OPCODE_ADD_LONG) 1 = .ok .WIDE) :=
  ⟨long_binary_kinds.1 _ (by decide), long_binary_kinds.2 _ (by decide)⟩

/-- Claim C21: for every conditional branch opcode (if-eq, if-ne, if-lt, if-ge,
if-gt, if-le and their -z forms) and for packed-switch and sparse-switch,
`src_reg_type` returns UNKNOWN at every source operand index, never NORMAL or
any other kind. -/
theorem src_reg_type_branch_unknown (insn : IRInstruction) (i : reg_t)
    (h : insn.opcode ∈ if_opcodes ∨ insn.opcode = .OPCODE_PACKED_SWITCH ∨
      insn.opcode = .OPCODE_SPARSE_SWITCH) :
    src_reg_type insn i = .ok .UNKNOWN := by
  obtain ⟨op, d, s, l, m, t⟩ := insn
  simp only [if_opcodes, List.mem_cons, List.mem_singleton, List.not_mem_nil, or_false] at h
  rcases h with (h | h | h | h | h | h | h | h | h | h | h | h) | h | h <;> subst h <;> rfl

/-- The scenario `if-eqz v0`, and `packed-switch` at index 0. -/
theorem src_reg_type_branch_unknown_witness :
    src_reg_type (IRInstruction.new .OPCODE_IF_EQZ) 0 = .ok .UNKNOWN ∧
    src_reg_type (IRInstruction.new .OPCODE_PACKED_SWITCH) 0 = .ok .UNKNOWN :=
  ⟨src_reg_type_branch_unknown _ 0 (Or.inl (by decide)),
   src_reg_type_branch_unknown _ 0 (Or.inr (Or.inl rfl))⟩

/-- Claim C22: for every conversion opcode X-to-Y, `src_reg_type` at index 0 is the
width of the input type X and `dest_reg_type` is the width of the output type
Y, the width being WIDE for long and double and NORMAL otherwise. -/
theorem conversion_kinds (insn : IRInstruction) (x y : Primitive)
    (h : (insn.opcode, x, y) ∈ conversion_opcodes) :
    src_reg_type insn 0 = .ok x.width ∧ dest_reg_type insn = .ok y.width := by
  obtain ⟨op, d, s, l, m, t⟩ := insn
  simp only [conversion_opcodes, List.mem_cons, List.mem_singleton, List.not_mem_nil,
    or_false, Prod.mk.injEq] at h
  rcases h with h | h | h | h | h | h | h | h | h | h | h | h | h | h | h <;>
    obtain ⟨rfl, rfl, rfl⟩ := h <;> exact ⟨rfl, rfl⟩

/-- The conversions long-to-int and int-to-double. -/
theorem conversion_kinds_witness :
    (src_reg_type (IRInstruction.new .OPCODE_LONG_TO_INT) 0 = .ok .WIDE ∧
      dest_reg_type (IRInstruction.new .OPCODE_LONG_TO_INT) = .ok .NORMAL) ∧
    (src_reg_type (IRInstruction.new .OPCODE_INT_TO_DOUBLE) 0 = .ok .NORMAL ∧
      dest_reg_type (IRInstruction.new .OPCODE_INT_TO_DOUBLE) = .ok .WIDE) :=
  ⟨conversion_kinds (IRInstruction.new .OPCODE_LONG_TO_INT) .long .int (by decide),
   conversion_kinds (IRInstruction.new .OPCODE_INT_TO_DOUBLE) .int .double (by decide)⟩

/-- Claim C23: for field writes `src_reg_type` at index 0 is the kind of the stored
value by variant (WIDE for iput-wide and sput-wide, OBJECT for iput-object and
sput-object, NORMAL for the plain and boolean/byte/char/short variants); for
every iput* opcode `src_reg_type` at index 1 is OBJECT; for every iget* opcode
`src_reg_type` at index 0 is OBJECT and every other index fails. -/
theorem src_reg_type_fields :
    (∀ insn : IRInstruction,
      insn.opcode ∈ [DexOpcode.OPCODE_IPUT_WIDE, .OPCODE_SPUT_WIDE] →
      src_reg_type insn 0 = .ok .WIDE) ∧
    (∀ insn : IRInstruction,
      insn.opcode ∈ [DexOpcode.OPCODE_IPUT_OBJECT, .OPCODE_SPUT_OBJECT] →
      src_reg_type insn 0 = .ok .OBJECT) ∧
    (∀ insn : IRInstruction,
      insn.opcode ∈ [DexOpcode.OPCODE_IPUT, .OPCODE_IPUT_BOOLEAN, .OPCODE_IPUT_BYTE,
        .OPCODE_IPUT_CHAR, .OPCODE_IPUT_SHORT, .OPCODE_SPUT, .OPCODE_SPUT_BOOLEAN,
        .OPCODE_SPUT_BYTE, .OPCODE_SPUT_CHAR, .OPCODE_SPUT_SHORT] →
      src_reg_type insn 0 = .ok .NORMAL) ∧
    (∀ insn : IRInstruction, insn.opcode ∈ iput_opcodes →
      src_reg_type insn 1 = .ok .OBJECT) ∧
    (∀ insn : IRInstruction, insn.opcode ∈ iget_opcodes →
      src_reg_type insn 0 = .ok .OBJECT ∧
        ∀ i : Nat, i ≠ 0 → ∃ e, src_reg_type insn i = .error e) := by
  refine ⟨?_, ?_, ?_, ?_, ?_⟩
  · rintro ⟨op, d, s, l, m, t⟩ h
    simp only [List.mem_cons, List.mem_singleton, List.not_mem_nil, or_false] at h
    rcases h with h | h <;> subst h <;> rfl
  · rintro ⟨op, d, s, l, m, t⟩ h
    simp only [List.mem_cons, List.mem_singleton, List.not_mem_nil, or_false] at h
    rcases h with h | h <;> subst h <;> rfl
  · rintro ⟨op, d, s, l, m, t⟩ h
    simp only [List.mem_cons, List.mem_singleton, List.not_mem_nil, or_false] at h
    rcases h with h | h | h | h | h | h | h | h | h | h <;> subst h <;> rfl
  · rintro ⟨op, d, s, l, m, t⟩ h
    simp only [iput_opcodes, List.mem_cons, List.mem_singleton, List.not_mem_nil,
      or_false] at h
    rcases h with h | h | h | h | h | h | h <;> subst h <;> rfl
  · rintro ⟨op, d, s, l, m, t⟩ h
    simp only [iget_opcodes, List.mem_cons, List.mem_singleton, List.not_mem_nil,
      or_false] at h
    rcases h with h | h | h | h | h | h | h <;> subst h <;>
      exact ⟨rfl, fun i hi => ⟨.assert_failed, by simp [src_reg_type, hi]⟩⟩

/-- The writes `iput-wide` and `sput-object`, and the read `iget-object`, which
takes its object at index 0 and fails at index 1. -/
theorem src_reg_type_fields_witness :
    src_reg_type (IRInstruction.new .OPCODE_IPUT_WIDE) 0 = .ok .WIDE ∧
    src_reg_type (IRInstruction.new .OPCODE_SPUT_OBJECT) 0 = .ok .OBJECT ∧
    src_reg_type (IRInstruction.new .OPCODE_IPUT_WIDE) 1 = .ok .OBJECT ∧
    src_reg_type (IRInstruction.new .OPCODE_IGET_OBJECT) 0 = .ok .OBJECT ∧
    (∃ e, src_reg_type (IRInstruction.new .OPCODE_IGET_OBJECT) 1 = .error e) :=
  ⟨src_reg_type_fields.1 _ (by decide), src_reg_type_fields.2.1 _ (by decide),
   src_reg_type_fields.2.2.2.1 _ (by decide),
   (src_reg_type_fields.2.2.2.2 (IRInstruction.new .OPCODE_IGET_OBJECT) (by decide)).1,
   (src_reg_type_fields.2.2.2.2 (IRInstruction.new .OPCODE_IGET_OBJECT) (by decide)).2 1
     (by decide)⟩

/-! ## Coverage of the destination classifier -/

/-- Claim C24, as stated, fails at `add-int/2addr`: `dest_reg_type` neither returns a
kind nor fails with the "No dest" assertion there, it fails with "Unhandled
opcode". -/
theorem dest_reg_type_third_outcome :
    dest_reg_type (IRInstruction.new .OPCODE_ADD_INT_2ADDR) = .error .unhandled_opcode ∧
    ¬ ((∃ k, dest_reg_type (IRInstruction.new .OPCODE_ADD_INT_2ADDR) = .ok k) ∨
      dest_reg_type (IRInstruction.new .OPCODE_ADD_INT_2ADDR) = .error .no_dest) := by
  decide

/-- Claim C24, amended: for every opcode `dest_reg_type` has exactly one of four
outcomes: it returns a destination kind, or it fails with the "No dest"
assertion, or, on exactly the 2ADDR arithmetic opcodes, it fails with the
"Unhandled opcode" assertion, or, on exactly the opcodes that no case label
names, it fails with the "Unknown opcode" assertion. -/
theorem dest_reg_type_outcomes (insn : IRInstruction) :
    (insn.opcode ∈ two_addr_opcodes ↔ dest_reg_type insn = .error .unhandled_opcode) ∧
    (insn.opcode = .UNLISTED ↔ dest_reg_type insn = .error .unknown_opcode) ∧
    ((∃ k, dest_reg_type insn = .ok k) ∨ dest_reg_type insn = .error .no_dest ∨
      dest_reg_type insn = .error .unhandled_opcode ∨
      dest_reg_type insn = .error .unknown_opcode) := by
  obtain ⟨op, d, s, l, m, t⟩ := insn
  dsimp only
  cases op <;> refine ⟨?_, ?_, ?_⟩ <;>
    first
    | exact Or.inl ⟨_, rfl⟩
    | exact Or.inr (Or.inl rfl)
    | exact Or.inr (Or.inr (Or.inl rfl))
    | exact Or.inr (Or.inr (Or.inr rfl))
    | exact ⟨fun _ => rfl, fun _ => rfl⟩
    | exact ⟨fun _ => rfl, fun _ => by decide⟩
    | exact ⟨fun h => absurd h (by decide), fun h => by cases h⟩

/-- Claim C25: whenever `dest_reg_type` returns, its result is one of ZERO, NORMAL,
WIDE, OBJECT (never UNKNOWN, CONFLICT or SIZE); it is ZERO only when the opcode
is const/4, const/16, const/high16 or const and the literal is 0; and for every
other opcode the outcome depends on the opcode alone: two instructions with the
same opcode get the same kind. -/
theorem dest_reg_type_result :
    (∀ (insn : IRInstruction) (k : RegisterType), dest_reg_type insn = .ok k →
      k = .ZERO ∨ k = .NORMAL ∨ k = .WIDE ∨ k = .OBJECT) ∧
    (∀ insn : IRInstruction, dest_reg_type insn = .ok .ZERO →
      insn.opcode ∈ const_opcodes ∧ insn.literal = 0) ∧
    (∀ insn₁ insn₂ : IRInstruction, insn₁.opcode = insn₂.opcode →
      insn₁.opcode ∉ const_opcodes → dest_reg_type insn₁ = dest_reg_type insn₂) := by
  refine ⟨?_, ?_, ?_⟩
  · rintro ⟨op, d, s, l, m, t⟩ k h
    cases op <;>
      first
      | (cases h; done)
      | (cases h; decide)
      | (cases h; simp only [const_dest_type]; split <;> simp)
  · rintro ⟨op, d, s, l, m, t⟩ h
    show op ∈ const_opcodes ∧ l = 0
    cases op <;>
      first
      | cases h
      | exact ⟨by decide, by simpa [dest_reg_type, const_dest_type] using h⟩
  · rintro ⟨op, d, s, l, m, t⟩ ⟨op', d', s', l', m', t'⟩ h hc
    dsimp only at h hc
    subst h
    cases op <;> first | rfl | exact absurd (by decide) hc

/-- The kinds of `const/4 v0, #0` and of two `add-int` instructions that differ in
everything but the opcode. -/
theorem dest_reg_type_result_witness :
    (RegisterType.ZERO = .ZERO ∨ RegisterType.ZERO = .NORMAL ∨ RegisterType.ZERO = .WIDE ∨
      RegisterType.ZERO = .OBJECT) ∧
    dest_reg_type (IRInstruction.new .OPCODE_ADD_INT) =
      dest_reg_type
        { opcode := .OPCODE_ADD_INT, dest := 3, srcs := [1, 2], literal := 5,
          method := none, type := none } :=
  ⟨dest_reg_type_result.1 (IRInstruction.new .OPCODE_CONST_4) .ZERO rfl,
   dest_reg_type_result.2.2 _ _ rfl (by decide)⟩

/-! ## Monotonicity of the join -/

/-- One join takes a kind of the lattice to a kind of the lattice, and a strict
change lowers the height. -/
theorem join_lowers_height : ∀ k x k' : RegisterType, k ∈ lattice.elements →
    join k x = .ok k' →
    k' ∈ lattice.elements ∧ (if k' = k then 0 else 1) + height k' ≤ height k := by
  decide

/-- The strict changes of a kind under repeated joining are bounded by its height. -/
theorem join_changes_le_height (xs : List RegisterType) :
    ∀ k : RegisterType, k ∈ lattice.elements → join_changes k xs ≤ height k := by
  induction xs with
  | nil => intro k _; simp [join_changes]
  | cons x xs ih =>
    intro k hk
    simp only [join_changes]
    cases hj : join k x with
    | error e => simp
    | ok k' =>
      obtain ⟨hk', hh⟩ := join_lowers_height k x k' hk hj
      have := ih k' hk'
      simp only
      omega

/-- Claim C26: join is monotone in each argument with respect to the order generated
by the lattice edges: for kinds among the six elements, a ≤ a' gives
join(a,b) ≤ join(a',b), and likewise in the second argument; consequently a
register's kind under repeated joining starting from UNKNOWN changes strictly at
most 3 times, and 3 changes occur (UNKNOWN, ZERO, OBJECT, CONFLICT). -/
theorem join_monotone_bounded_changes :
    (∀ a a' b : RegisterType, a ∈ lattice.elements → a' ∈ lattice.elements →
      b ∈ lattice.elements → lattice.Le a a' →
      ∃ c c', join a b = .ok c ∧ join a' b = .ok c' ∧ lattice.Le c c') ∧
    (∀ a b b' : RegisterType, a ∈ lattice.elements → b ∈ lattice.elements →
      b' ∈ lattice.elements → lattice.Le b b' →
      ∃ c c', join a b = .ok c ∧ join a b' = .ok c' ∧ lattice.Le c c') ∧
    (∀ xs : List RegisterType, join_changes .UNKNOWN xs ≤ 3) ∧
    join_changes .UNKNOWN [.ZERO, .OBJECT, .NORMAL] = 3 := by
  refine ⟨?_, ?_, fun xs => join_changes_le_height xs .UNKNOWN (by decide), by decide⟩
  · simp only [le_iff_leb]
    intro a a' b
    cases a <;> cases a' <;> cases b <;> decide
  · simp only [le_iff_leb]
    intro a b b'
    cases a <;> cases b <;> cases b' <;> decide

/-- Monotonicity at OBJECT ≤ ZERO joined with NORMAL: CONFLICT ≤ NORMAL. -/
theorem join_monotone_bounded_changes_witness :
    lattice.Le .OBJECT .ZERO ∧
      ∃ c c', join .OBJECT .NORMAL = .ok c ∧ join .ZERO .NORMAL = .ok c' ∧ lattice.Le c c' :=
  have h : lattice.Le .OBJECT .ZERO := (le_iff_leb _ _).2 (by decide)
  ⟨h, join_monotone_bounded_changes.1 .OBJECT .ZERO .NORMAL (by decide) (by decide)
    (by decide) h⟩

/-- Claim C27: the move round trip does not preserve ZERO: for all register numbers
d, s, `gen_move` builds for ZERO the same instruction as for NORMAL (opcode
MOVE_16, dest d, source s), so `dest_reg_type` and `src_reg_type` at index 0 of
that instruction are NORMAL and not ZERO. -/
theorem gen_move_zero_is_normal (d s : reg_t) :
    gen_move .ZERO d s = gen_move .NORMAL d s ∧
    ∃ insn, gen_move .ZERO d s = .ok insn ∧
      insn.opcode = .OPCODE_MOVE_16 ∧ insn.dest = d ∧ insn.src 0 = some s ∧
      dest_reg_type insn = .ok .NORMAL ∧ src_reg_type insn 0 = .ok .NORMAL ∧
      dest_reg_type insn ≠ .ok .ZERO ∧ src_reg_type insn 0 ≠ .ok .ZERO :=
  ⟨rfl, _, rfl, rfl, rfl, rfl, rfl, rfl, fun h => (by cases h), fun h => (by cases h)⟩

end regalloc
